import Mathlib

/-!
dynamic-tee-vsink: hot-plug / hot-unplug of a tee branch
==========================================================

A shallow embedding of `src/dynamic-tee-vsink.c`.

The functions of the program (`message_cb`, `unlink_cb`, `tick_cb`, `main`)
are translated statement by statement.  Every call into GLib / GStreamer is a
primitive that appends one `Call` to `World.trace` and applies the documented
effect of that call to the modelled part of the framework state:

* the children of the sink bin `vsbin` (`World.children`),
* the request pads currently held on the tee (`World.teePads`),
* the pad links tee-src-pad → sink pad of an element (`World.padLinks`),
* element → element links (`World.elemLinks`),
* the element states (`World.states`),
* the idle probes installed (`World.probes`),
* whether `g_main_loop_quit` has been called (`World.quit`).

Object identity is a natural number handed out by `World.next`.  A `Sink *`
is an index into `World.heap`.  Calls whose outcome is decided by the
framework (an element factory, `gst_bin_add`, a link) take their outcome from
an explicit environment record, so statements quantify over every behaviour
of the framework.  Reference counts and element names are not modelled.

Threads are modelled by interleaving: a callback runs to completion before
the next event is dispatched.  `g_error` is fatal in GLib (it logs the
message and terminates the process), so control never reaches the statement
that follows it.  Memory released with `g_free` is never handed out again.
-/

namespace DynTee

/-- Identity of a framework object (element or request pad). -/
abbrev Obj := Nat

/-- The `GstState` values used by the program. -/
inductive GstState where
  | NULL | READY | PAUSED | PLAYING
  deriving DecidableEq, Repr

/-- `GstPadProbeReturn` values used by `unlink_cb`. -/
inductive GstPadProbeReturn where
  | OK      -- keep the probe
  | REMOVE  -- remove the probe
  deriving DecidableEq, Repr

/-- The `Sink` struct.  `NULL` pointers are `none`. -/
structure Sink where
  teepad : Option Obj
  queue : Option Obj
  conv : Option Obj
  sink : Option Obj
  removing : Bool
  deriving DecidableEq, Repr

/-- The result of `g_new0 (Sink, 1)`: all fields zero. -/
def Sink.zero : Sink := ⟨none, none, none, none, false⟩

/-- One call into GLib / GStreamer, with its arguments (and its result where
the program uses it).  A static `"sink"` pad is named by its owner element. -/
inductive Call where
  | g_print (s : String)
  | g_printerr (s : String)
  | g_error (s : String)
  | gst_init
  | pipeline_new (res : Option Obj)
  | bin_new (name : String) (res : Obj)
  | factory_make (factory : String) (name : Option String) (res : Option Obj)
  | object_set (o : Option Obj) (prop : String)
  | debug_bin_to_dot_file (bin : Option Obj) (label : String)
  | get_pad_template (e : Option Obj) (name : String)
  | request_pad (e : Option Obj) (res : Option Obj)
  | object_ref (o : Option Obj)
  | object_unref (o : Option Obj)
  | pad_unref (owner : Option Obj)
  | bin_add (bin : Option Obj) (e : Obj)
  | element_link (a b : Obj)
  | sync_state_with_parent (e : Option Obj)
  | get_static_pad (e : Option Obj) (name : String)
  | pad_link (src : Option Obj) (sinkOwner : Option Obj)
  | pad_unlink (src : Option Obj) (sinkOwner : Option Obj)
  | bin_remove (bin : Option Obj) (e : Option Obj)
  | set_state (e : Option Obj) (s : GstState)
  | release_request_pad (e : Option Obj) (pad : Option Obj)
  | pad_add_probe (pad : Option Obj) (data : Nat)
  | ghost_pad_new (name : String) (targetOwner : Option Obj)
  | pad_set_active
  | element_add_pad (e : Option Obj)
  | timeout_add_seconds (interval : Nat)
  | main_loop_new
  | pipeline_get_bus (p : Option Obj)
  | bus_add_signal_watch
  | signal_connect (signal : String)
  | bus_unref
  | main_loop_run
  | main_loop_quit
  | main_loop_unref
  | get_path_string (src : String)
  | message_parse
  | g_error_free
  | g_free
  deriving DecidableEq, Repr

/-- The process-wide variables of the program together with the modelled part
of the framework state. -/
structure World where
  /-- next fresh object identity -/
  next : Nat
  /-- `static GstElement *pipeline` -/
  pipeline : Option Obj
  /-- `static GstElement *pbin` -/
  pbin : Option Obj
  /-- `static GstElement *vsbin` -/
  vsbin : Option Obj
  /-- `static GstElement *tee` -/
  tee : Option Obj
  /-- `static GList *sinks`: pointers into `heap` -/
  sinks : List Nat
  /-- the allocated `Sink` structs -/
  heap : List Sink
  /-- children of `vsbin` -/
  children : List Obj
  /-- request pads currently held on the tee -/
  teePads : List Obj
  /-- `(src pad, owner of the peer sink pad)` -/
  padLinks : List (Obj × Obj)
  /-- element to element links -/
  elemLinks : List (Obj × Obj)
  /-- current state of each element that has left `NULL` at least once -/
  states : List (Obj × GstState)
  /-- installed idle probes: `(pad, user_data)` -/
  probes : List (Obj × Nat)
  /-- `g_main_loop_quit (loop)` has been called -/
  quit : Bool
  /-- every framework call made so far, oldest first -/
  trace : List Call
  deriving DecidableEq, Repr

/-- The world before `main` runs. -/
def World.init : World :=
  { next := 0, pipeline := none, pbin := none, vsbin := none, tee := none,
    sinks := [], heap := [], children := [], teePads := [], padLinks := [],
    elemLinks := [], states := [], probes := [], quit := false, trace := [] }

/-- Record one call. -/
def World.call (w : World) (c : Call) : World :=
  { w with trace := w.trace ++ [c] }

/-- Current state of an element (`NULL` unless set). -/
def World.stateOf (w : World) (e : Obj) : GstState :=
  match w.states.find? (fun p => p.1 == e) with
  | some p => p.2
  | none => GstState.NULL

/-! ## Framework primitives -/

/-- `g_print`. -/
def g_print (s : String) (w : World) : World := w.call (Call.g_print s)

/-- `g_printerr`. -/
def g_printerr (s : String) (w : World) : World := w.call (Call.g_printerr s)

/-- `g_new0 (Sink, 1)`: a fresh zeroed struct; returns its address. -/
def g_new0 (w : World) : Nat × World :=
  (w.heap.length, { w with heap := w.heap ++ [Sink.zero] })

/-- Read `*sink`.  A pointer that was never allocated reads as the zero
struct. -/
def World.deref (w : World) (p : Nat) : Sink := (w.heap[p]?).getD Sink.zero

/-- Write `*sink`. -/
def World.store (w : World) (p : Nat) (s : Sink) : World :=
  { w with heap := w.heap.set p s }

/-- `g_atomic_int_compare_and_exchange (&sink->removing, oldval, newval)`:
stores `newval` and returns `TRUE` iff the flag equals `oldval`. -/
def compare_and_exchange_removing (p : Nat) (oldval newval : Bool) (w : World) :
    Bool × World :=
  let s := w.deref p
  if s.removing = oldval then (true, w.store p { s with removing := newval })
  else (false, w)

/-- `gst_element_get_static_pad (e, "sink")`: the sink pad of `e`, named by
its owner; `NULL` for a `NULL` element. -/
def get_static_pad (e : Option Obj) (w : World) : Option Obj × World :=
  (e, w.call (Call.get_static_pad e "sink"))

/-- `gst_pad_unlink (src, sinkpad)`: removes the link if both pads exist. -/
def pad_unlink (src sinkOwner : Option Obj) (w : World) : World :=
  let w := w.call (Call.pad_unlink src sinkOwner)
  match src, sinkOwner with
  | some p, some e => { w with padLinks := w.padLinks.filter (fun l => l != (p, e)) }
  | _, _ => w

/-- `gst_object_unref` on a static pad obtained by `get_static_pad`. -/
def pad_unref (owner : Option Obj) (w : World) : World :=
  w.call (Call.pad_unref owner)

/-- `gst_object_unref` on an element or request pad. -/
def object_unref (o : Option Obj) (w : World) : World :=
  w.call (Call.object_unref o)

/-- `gst_object_ref`: returns its argument. -/
def object_ref (o : Option Obj) (w : World) : Option Obj × World :=
  (o, w.call (Call.object_ref o))

/-- `gst_bin_remove (GST_BIN (vsbin), e)`: the pads of `e` are unlinked and
`e` leaves the children of the bin. -/
def bin_remove (e : Option Obj) (w : World) : World :=
  let w := w.call (Call.bin_remove w.vsbin e)
  match w.vsbin, e with
  | some _, some x =>
    if x ∈ w.children then
      { w with children := w.children.filter (fun c => c != x),
               padLinks := w.padLinks.filter (fun l => l.2 != x),
               elemLinks := w.elemLinks.filter (fun l => l.1 != x && l.2 != x) }
    else w
  | _, _ => w

/-- `gst_element_set_state (e, s)`. -/
def set_state (e : Option Obj) (s : GstState) (w : World) : World :=
  let w := w.call (Call.set_state e s)
  match e with
  | some x => { w with states := (x, s) :: w.states.filter (fun p => p.1 != x) }
  | none => w

/-- `gst_element_release_request_pad (tee, pad)`: the pad is unlinked and
removed from the tee. -/
def release_request_pad (pad : Option Obj) (w : World) : World :=
  let w := w.call (Call.release_request_pad w.tee pad)
  match w.tee, pad with
  | some _, some p =>
    { w with teePads := w.teePads.filter (fun q => q != p),
             padLinks := w.padLinks.filter (fun l => l.1 != p) }
  | _, _ => w

/-! ## `unlink_cb` -/

/-- `unlink_cb (pad, info, user_data)` with `user_data = p`. -/
def unlink_cb (p : Nat) (w : World) : GstPadProbeReturn × World :=
  -- Sink *sink = user_data;
  let sink := p
  -- if (!g_atomic_int_compare_and_exchange (&sink->removing, FALSE, TRUE))
  --   return GST_PAD_PROBE_OK;
  let (won, w) := compare_and_exchange_removing sink false true w
  if !won then (GstPadProbeReturn.OK, w) else
  -- sinkpad = gst_element_get_static_pad (sink->queue, "sink");
  let (sinkpad, w) := get_static_pad (w.deref sink).queue w
  -- gst_pad_unlink (sink->teepad, sinkpad);
  let w := pad_unlink (w.deref sink).teepad sinkpad w
  -- gst_object_unref (sinkpad);
  let w := pad_unref sinkpad w
  -- gst_bin_remove (GST_BIN (vsbin), sink->queue); ... conv ... sink
  let w := bin_remove (w.deref sink).queue w
  let w := bin_remove (w.deref sink).conv w
  let w := bin_remove (w.deref sink).sink w
  -- gst_element_set_state (sink->sink, GST_STATE_NULL); ... conv ... queue
  let w := set_state (w.deref sink).sink GstState.NULL w
  let w := set_state (w.deref sink).conv GstState.NULL w
  let w := set_state (w.deref sink).queue GstState.NULL w
  -- gst_object_unref (sink->queue); ... conv ... sink
  let w := object_unref (w.deref sink).queue w
  let w := object_unref (w.deref sink).conv w
  let w := object_unref (w.deref sink).sink w
  -- gst_element_release_request_pad (tee, sink->teepad);
  let w := release_request_pad (w.deref sink).teepad w
  -- gst_object_unref (sink->teepad);
  let w := object_unref (w.deref sink).teepad w
  -- g_print ("removed\n");
  let w := g_print "removed\n" w
  -- return GST_PAD_PROBE_REMOVE;
  (GstPadProbeReturn.REMOVE, w)

/-! ## `tick_cb` -/

/-- What the framework answers during one add phase of `tick_cb`. -/
structure Env where
  /-- `gst_element_factory_make ("queue", ...)` returns a node -/
  make_queue : Bool
  /-- `gst_element_factory_make ("videoconvert", ...)` returns a node -/
  make_conv : Bool
  /-- `gst_element_factory_make ("autovideosink", ...)` returns a node -/
  make_sink : Bool
  /-- `gst_bin_add` accepts the queue -/
  add_queue : Bool
  /-- `gst_bin_add` accepts the converter -/
  add_conv : Bool
  /-- `gst_bin_add` accepts the consumer -/
  add_sink : Bool
  /-- `gst_element_link (queue, conv)` succeeds -/
  link_queue_conv : Bool
  /-- `gst_element_link (conv, sink)` succeeds -/
  link_conv_sink : Bool
  /-- `gst_pad_link (teepad, sinkpad)` succeeds -/
  link_teepad : Bool
  deriving DecidableEq, Repr

/-- The framework reports no failure. -/
def Env.ok : Env := ⟨true, true, true, true, true, true, true, true, true⟩

/-- `GST_DEBUG_BIN_TO_DOT_FILE (GST_BIN (pipeline), ..., label)`. -/
def debug_bin_to_dot_file (label : String) (w : World) : World :=
  w.call (Call.debug_bin_to_dot_file w.pipeline label)

/-- `gst_element_class_get_pad_template (GST_ELEMENT_GET_CLASS (tee), "src_%u")`. -/
def get_pad_template (w : World) : World :=
  w.call (Call.get_pad_template w.tee "src_%u")

/-- `gst_element_request_pad (tee, templ, NULL, NULL)`: a new request pad on
the tee, with a fresh identity. -/
def request_pad (w : World) : Option Obj × World :=
  match w.tee with
  | some t =>
    (some w.next,
     { w with next := w.next + 1, teePads := w.teePads ++ [w.next],
              trace := w.trace ++ [Call.request_pad (some t) (some w.next)] })
  | none => (none, w.call (Call.request_pad none none))

/-- `gst_element_factory_make (factory, name)`: a new node with a fresh
identity, or `NULL` when the factory fails. -/
def factory_make (ok : Bool) (factory : String) (name : Option String) (w : World) :
    Option Obj × World :=
  if ok then
    (some w.next,
     { w with next := w.next + 1,
              trace := w.trace ++ [Call.factory_make factory name (some w.next)] })
  else (none, w.call (Call.factory_make factory name none))

/-- `gst_bin_add (bin, e)`.  Only the children of `vsbin` are modelled. -/
def bin_add (ok : Bool) (bin : Option Obj) (e : Obj) (w : World) : World :=
  let w := w.call (Call.bin_add bin e)
  if ok && bin.isSome && bin == w.vsbin && !(w.children.contains e) then
    { w with children := e :: w.children }
  else w

/-- `gst_bin_add_many (bin, e1, ..., NULL)`: the argument list ends at the
first `NULL`. -/
def bin_add_many (bin : Option Obj) : List (Bool × Option Obj) → World → World
  | [], w => w
  | (_, none) :: _, w => w
  | (ok, some e) :: rest, w => bin_add_many bin rest (bin_add ok bin e w)

/-- `gst_element_link (a, b)`. -/
def element_link (ok : Bool) (a b : Obj) (w : World) : Bool × World :=
  let w := w.call (Call.element_link a b)
  if ok then (true, { w with elemLinks := (a, b) :: w.elemLinks }) else (false, w)

/-- The loop of `gst_element_link_many`: link pairwise until the first
failure or the terminating `NULL`. -/
def link_many_loop (e1 : Obj) : List (Bool × Option Obj) → World → Bool × World
  | [], w => (true, w)
  | (_, none) :: _, w => (true, w)
  | (ok, some e2) :: rest, w =>
    match element_link ok e1 e2 w with
    | (true, w) => link_many_loop e2 rest w
    | (false, w) => (false, w)

/-- `gst_element_link_many (e1, e2, ..., NULL)`: fails at once when one of
the first two arguments is no element. -/
def element_link_many (e1 : Option Obj) (args : List (Bool × Option Obj)) (w : World) :
    Bool × World :=
  match e1, args with
  | some a, (ok, some b) :: rest => link_many_loop a ((ok, some b) :: rest) w
  | _, _ => (false, w)

/-- `gst_element_sync_state_with_parent (e)`: a child of the sink bin takes
the state of the running graph (the state last set on `pipeline`). -/
def sync_state_with_parent (e : Option Obj) (w : World) : World :=
  let w := w.call (Call.sync_state_with_parent e)
  match e with
  | some x =>
    if x ∈ w.children then
      { w with states :=
          (x, (w.pipeline.map w.stateOf).getD GstState.NULL) ::
            w.states.filter (fun p => p.1 != x) }
    else w
  | none => w

/-- `gst_pad_link (src, sinkpad)`. -/
def pad_link (ok : Bool) (src sinkOwner : Option Obj) (w : World) : World :=
  let w := w.call (Call.pad_link src sinkOwner)
  match src, sinkOwner with
  | some p, some e => if ok then { w with padLinks := (p, e) :: w.padLinks } else w
  | _, _ => w

/-- `gst_pad_add_probe (pad, GST_PAD_PROBE_TYPE_IDLE, unlink_cb, data, g_free)`. -/
def pad_add_probe (pad : Option Obj) (data : Nat) (w : World) : World :=
  let w := w.call (Call.pad_add_probe pad data)
  match pad with
  | some p => { w with probes := w.probes ++ [(p, data)] }
  | none => w

/-- `tick_cb (data)`. -/
def tick_cb (env : Env) (w : World) : Bool × World :=
  -- Sink *sink = g_new0 (Sink, 1);
  let (sink, w) := g_new0 w
  match w.sinks with
  | [] =>
    -- if (!sinks) {
    let w := debug_bin_to_dot_file "before" w
    let w := get_pad_template w
    let w := g_print "add\n" w
    -- sink->teepad = gst_element_request_pad (tee, templ, NULL, NULL);
    let (teepad, w) := request_pad w
    let w := w.store sink { w.deref sink with teepad := teepad }
    -- sink->queue = gst_element_factory_make ("queue", "vsbqueue");
    let (queue, w) := factory_make env.make_queue "queue" (some "vsbqueue") w
    let w := w.store sink { w.deref sink with queue := queue }
    -- sink->conv = gst_element_factory_make ("videoconvert", "vsbconv");
    let (conv, w) := factory_make env.make_conv "videoconvert" (some "vsbconv") w
    let w := w.store sink { w.deref sink with conv := conv }
    -- sink->sink = gst_element_factory_make ("autovideosink", "vsbsink");
    let (snk, w) := factory_make env.make_sink "autovideosink" (some "vsbsink") w
    let w := w.store sink { w.deref sink with sink := snk }
    -- sink->removing = FALSE;
    let w := w.store sink { w.deref sink with removing := false }
    -- gst_bin_add_many (GST_BIN (vsbin), gst_object_ref (sink->queue), ...);
    let (a1, w) := object_ref (w.deref sink).queue w
    let (a2, w) := object_ref (w.deref sink).conv w
    let (a3, w) := object_ref (w.deref sink).sink w
    let w := bin_add_many w.vsbin
      [(env.add_queue, a1), (env.add_conv, a2), (env.add_sink, a3)] w
    -- gst_element_link_many (sink->queue, sink->conv, sink->sink, NULL);
    let (_, w) := element_link_many (w.deref sink).queue
      [(env.link_queue_conv, (w.deref sink).conv),
       (env.link_conv_sink, (w.deref sink).sink)] w
    -- gst_element_sync_state_with_parent (...) for queue, conv, sink
    let w := sync_state_with_parent (w.deref sink).queue w
    let w := sync_state_with_parent (w.deref sink).conv w
    let w := sync_state_with_parent (w.deref sink).sink w
    -- sinkpad = gst_element_get_static_pad (sink->queue, "sink");
    let (sinkpad, w) := get_static_pad (w.deref sink).queue w
    -- gst_pad_link (sink->teepad, sinkpad);
    let w := pad_link env.link_teepad (w.deref sink).teepad sinkpad w
    -- gst_object_unref (sinkpad);
    let w := pad_unref sinkpad w
    let w := g_print "added\n" w
    let w := debug_bin_to_dot_file "added" w
    -- sinks = g_list_append (sinks, sink);
    let w := { w with sinks := w.sinks ++ [sink] }
    -- return TRUE;
    (true, w)
  | data :: rest =>
    -- else { Sink *sink;
    let w := g_print "remove\n" w
    -- sink = sinks->data;
    let sink := data
    -- sinks = g_list_delete_link (sinks, sinks);
    let w := { w with sinks := rest }
    -- gst_pad_add_probe (sink->teepad, GST_PAD_PROBE_TYPE_IDLE, unlink_cb, sink, g_free);
    let w := pad_add_probe (w.deref sink).teepad sink w
    -- return TRUE;
    (true, w)

/-! ## `message_cb` -/

/-- `GST_MESSAGE_TYPE (message)`: the three kinds the program handles, and
every other kind. -/
inductive GstMessageType where
  | ERROR | WARNING | EOS
  | OTHER (code : Nat)
  deriving DecidableEq, Repr

/-- A bus message: its kind, the path string of `message->src`, and what
`gst_message_parse_error` / `gst_message_parse_warning` return for it. -/
structure GstMessage where
  type : GstMessageType
  src : String
  err_message : String
  debug : Option String
  deriving DecidableEq, Repr

/-- `g_main_loop_quit (loop)`. -/
def main_loop_quit (w : World) : World :=
  { w with quit := true, trace := w.trace ++ [Call.main_loop_quit] }

/-- The two `g_printerr` statements shared by the error and warning cases:
the headline, then the debug detail when `debug != NULL`. -/
def print_report (message : GstMessage) (w : World) : World :=
  -- g_printerr ("ERROR: from element %s: %s\n", name, err->message);
  let w := g_printerr
    ("ERROR: from element " ++ message.src ++ ": " ++ message.err_message ++ "\n") w
  -- if (debug != NULL) g_printerr ("Additional debug info:\n%s\n", debug);
  match message.debug with
  | some d => g_printerr ("Additional debug info:\n" ++ d ++ "\n") w
  | none => w

/-- `message_cb (bus, message, user_data)`. -/
def message_cb (message : GstMessage) (w : World) : Bool × World :=
  match message.type with
  | GstMessageType.ERROR =>
    let w := w.call (Call.get_path_string message.src)
    let w := w.call Call.message_parse
    let w := print_report message w
    let w := w.call Call.g_error_free
    let w := w.call Call.g_free
    let w := w.call Call.g_free
    let w := main_loop_quit w
    (true, w)
  | GstMessageType.WARNING =>
    let w := w.call (Call.get_path_string message.src)
    let w := w.call Call.message_parse
    let w := print_report message w
    let w := w.call Call.g_error_free
    let w := w.call Call.g_free
    let w := w.call Call.g_free
    (true, w)
  | GstMessageType.EOS =>
    let w := g_print "Got EOS\n" w
    let w := main_loop_quit w
    (true, w)
  | GstMessageType.OTHER _ => (true, w)

/-! ## The event loop and `main` -/

/-- What can run while `g_main_loop_run` is active: the timer fires, the
framework invokes the idle-probe callback with some `user_data`, or the bus
delivers a message. -/
inductive Event where
  | tick (env : Env)
  | probe (p : Nat)
  | message (m : GstMessage)
  deriving DecidableEq, Repr

/-- One event.  When `unlink_cb` answers `GST_PAD_PROBE_REMOVE` the framework
uninstalls the probe (and frees its `user_data`). -/
def step (e : Event) (w : World) : World :=
  match e with
  | Event.tick env => (tick_cb env w).2
  | Event.probe p =>
    match unlink_cb p w with
    | (GstPadProbeReturn.REMOVE, w) => { w with probes := w.probes.filter (fun x => x.2 != p) }
    | (GstPadProbeReturn.OK, w) => w
  | Event.message m => (message_cb m w).2

/-- A sequence of events, in order. -/
def run : List Event → World → World
  | [], w => w
  | e :: es, w => run es (step e w)

/-- `g_main_loop_run (loop)` on a schedule of events: events are dispatched
until `g_main_loop_quit` has been called.  The flag is `false` when the
schedule ends without a quit request, i.e. the loop is still running. -/
def g_main_loop_run : List Event → World → Bool × World
  | [], w => (w.quit, w)
  | e :: es, w => if w.quit then (true, w) else g_main_loop_run es (step e w)

/-- What the framework answers while `main` builds the graph. -/
structure StartEnv where
  /-- `gst_pipeline_new` returns a node -/
  pipeline_ok : Bool
  /-- `gst_element_factory_make ("playbin", NULL)` returns a node -/
  pbin_ok : Bool
  /-- `gst_element_factory_make ("tee", NULL)` returns a node -/
  tee_ok : Bool
  /-- `gst_element_factory_make ("queue", NULL)` returns a node -/
  queue_ok : Bool
  /-- `gst_element_factory_make ("fakesink", NULL)` returns a node -/
  sink_ok : Bool
  /-- `gst_element_link_many (queue, sink, NULL)` succeeds -/
  link_ok : Bool
  /-- `gst_pad_link (teepad, sinkpad)` succeeds -/
  pad_link_ok : Bool
  deriving DecidableEq, Repr

/-- The framework reports no failure during startup. -/
def StartEnv.ok : StartEnv := ⟨true, true, true, true, true, true, true⟩

/-- How the process ends.  `g_error` logs and then terminates the process
abnormally (it never returns), so the statement after a `g_error` is never
reached. -/
inductive Outcome where
  /-- `main` returned this value -/
  | returned (code : Int)
  /-- terminated by `g_error` -/
  | aborted
  /-- still inside `g_main_loop_run` when the schedule ends -/
  | running
  deriving DecidableEq, Repr

/-- The process exit status is 0. -/
def Outcome.isZero : Outcome → Bool
  | Outcome.returned c => c == 0
  | _ => false

/-- `gst_pipeline_new (NULL)`. -/
def pipeline_new (ok : Bool) (w : World) : Option Obj × World :=
  if ok then
    (some w.next,
     { w with next := w.next + 1, trace := w.trace ++ [Call.pipeline_new (some w.next)] })
  else (none, w.call (Call.pipeline_new none))

/-- `gst_bin_new (name)`. -/
def bin_new (name : String) (w : World) : Option Obj × World :=
  (some w.next,
   { w with next := w.next + 1, trace := w.trace ++ [Call.bin_new name w.next] })

/-- Lines 191-253 of `main`: argument check and graph construction, up to and
including `gst_element_set_state (pipeline, GST_STATE_PLAYING)`.  The result
is `Except.error` when `main` ends before the event loop. -/
def startup (argc : Nat) (argv : List String) (env : StartEnv) :
    Except (Outcome × World) World :=
  let w := World.init
  -- if (argc != 2) { g_error ("Usage: %s filename", argv[0]); return 0; }
  if argc ≠ 2 then
    Except.error (Outcome.aborted,
      w.call (Call.g_error ("Usage: " ++ argv.headD "(null)" ++ " filename")))
  else
  let w := w.call Call.gst_init
  -- pipeline = gst_pipeline_new (NULL);
  let (pipeline, w) := pipeline_new env.pipeline_ok w
  let w := { w with pipeline := pipeline }
  -- pbin = gst_element_factory_make ("playbin", NULL);
  let (pbin, w) := factory_make env.pbin_ok "playbin" none w
  let w := { w with pbin := pbin }
  -- vsbin = gst_bin_new ("videosinkbin");
  let (vsbin, w) := bin_new "videosinkbin" w
  let w := { w with vsbin := vsbin }
  -- tee = gst_element_factory_make ("tee", NULL);
  let (tee, w) := factory_make env.tee_ok "tee" none w
  let w := { w with tee := tee }
  -- GstElement *queue = gst_element_factory_make ("queue", NULL);
  let (queue, w) := factory_make env.queue_ok "queue" none w
  -- GstElement *sink = gst_element_factory_make ("fakesink", NULL);
  let (sink, w) := factory_make env.sink_ok "fakesink" none w
  -- if (!pipeline || !pbin || !tee || !queue || !sink) { g_error (...); return -1; }
  if w.pipeline.isNone || w.pbin.isNone || w.tee.isNone || queue.isNone || sink.isNone then
    Except.error (Outcome.aborted, w.call (Call.g_error "Failed to create elements"))
  else
  let w := w.call (Call.object_set sink "sync")
  let w := w.call (Call.object_set w.pbin "uri")
  -- gst_bin_add_many (GST_BIN (pipeline), pbin, NULL);
  let w := bin_add_many w.pipeline [(true, w.pbin)] w
  -- gst_bin_add_many (GST_BIN (vsbin), tee, queue, sink, NULL);
  let w := bin_add_many w.vsbin [(true, w.tee), (true, queue), (true, sink)] w
  -- if (!gst_element_link_many (queue, sink, NULL)) { g_error (...); return -2; }
  match element_link_many queue [(env.link_ok, sink)] w with
  | (false, w) => Except.error (Outcome.aborted, w.call (Call.g_error "Failed to link elements"))
  | (true, w) =>
  let w := get_pad_template w
  -- GstPad *teepad = gst_element_request_pad (tee, templ, NULL, NULL);
  let (teepad, w) := request_pad w
  -- GstPad *sinkpad = gst_element_get_static_pad (queue, "sink");
  let (sinkpad, w) := get_static_pad queue w
  -- gst_pad_link (teepad, sinkpad);
  let w := pad_link env.pad_link_ok teepad sinkpad w
  let w := pad_unref sinkpad w
  -- GstPad *pad = gst_element_get_static_pad (tee, "sink");
  let (pad, w) := get_static_pad w.tee w
  -- GstPad *ghostPad = gst_ghost_pad_new ("sink", pad);
  let w := w.call (Call.ghost_pad_new "sink" pad)
  let w := w.call Call.pad_set_active
  let w := w.call (Call.element_add_pad w.vsbin)
  let w := pad_unref pad w
  let w := w.call (Call.object_set w.pbin "video-sink")
  -- g_timeout_add_seconds (2, tick_cb, NULL);
  let w := w.call (Call.timeout_add_seconds 2)
  let w := w.call Call.main_loop_new
  let w := w.call (Call.pipeline_get_bus w.pipeline)
  let w := w.call Call.bus_add_signal_watch
  let w := w.call (Call.signal_connect "message")
  let w := w.call Call.bus_unref
  -- gst_element_set_state (pipeline, GST_STATE_PLAYING);
  let w := set_state w.pipeline GstState.PLAYING w
  Except.ok w

/-- Lines 257-261 of `main`: what runs after `g_main_loop_run` returns. -/
def shutdown (w : World) : World :=
  -- gst_element_set_state (pipeline, GST_STATE_NULL);
  let w := set_state w.pipeline GstState.NULL w
  -- g_main_loop_unref (loop);
  let w := w.call Call.main_loop_unref
  -- gst_object_unref (pipeline);
  let w := object_unref w.pipeline w
  w

/-- `main (argc, argv)`, with the answers of the framework during startup and
the schedule of events that the event loop dispatches. -/
def main (argc : Nat) (argv : List String) (env : StartEnv) (events : List Event) :
    Outcome × World :=
  match startup argc argv env with
  | Except.error r => r
  | Except.ok w =>
    -- g_main_loop_run (loop);
    match g_main_loop_run events (w.call Call.main_loop_run) with
    | (false, w) => (Outcome.running, w)
    | (true, w) =>
      let w := shutdown w
      -- return 0;
      (Outcome.returned 0, w)

/-- The world `main` has constructed when the event loop starts and the
framework reported no failure. -/
def started : World :=
  match startup 2 ["dynamic-tee-vsink", "file:///clip.ogv"] StartEnv.ok with
  | Except.ok w => w.call Call.main_loop_run
  | Except.error r => r.2

/-! ## Definitions used in the statements and in the proofs -/

/-- The framework calls of one teardown of the Branch `s`, in the order the
specification lists them: unlink; remove the three nodes from the host; stop
consumer, converter, queue; drop the node references; release the port and
drop its reference; log. -/
def teardown_calls (vsbin tee : Option Obj) (s : Sink) : List Call :=
  [ Call.get_static_pad s.queue "sink",
    Call.pad_unlink s.teepad s.queue,
    Call.pad_unref s.queue,
    Call.bin_remove vsbin s.queue,
    Call.bin_remove vsbin s.conv,
    Call.bin_remove vsbin s.sink,
    Call.set_state s.sink GstState.NULL,
    Call.set_state s.conv GstState.NULL,
    Call.set_state s.queue GstState.NULL,
    Call.object_unref s.queue,
    Call.object_unref s.conv,
    Call.object_unref s.sink,
    Call.release_request_pad tee s.teepad,
    Call.object_unref s.teepad,
    Call.g_print "removed\n" ]

/-- The struct that the add phase of `tick_cb` fills in. -/
def tick_cb_sink (env : Env) (w : World) : Sink :=
  let (teepad, w) := request_pad w
  let (queue, w) := factory_make env.make_queue "queue" (some "vsbqueue") w
  let (conv, w) := factory_make env.make_conv "videoconvert" (some "vsbconv") w
  let (snk, _) := factory_make env.make_sink "autovideosink" (some "vsbsink") w
  { teepad := teepad, queue := queue, conv := conv, sink := snk, removing := false }

/-- The log lines `add` and `remove`. -/
def Call.isAddRemove (c : Call) : Bool :=
  c == Call.g_print "add\n" || c == Call.g_print "remove\n"

/-- The `add` / `remove` events of a trace, in order. -/
def addRemoveEvents (t : List Call) : List Call := t.filter Call.isAddRemove

/-- Strictly alternating events: `n` of them, starting with `remove` when
`b` is set and with `add` otherwise. -/
def alternatingFrom : Bool → Nat → List Call
  | _, 0 => []
  | b, n + 1 =>
    (if b then Call.g_print "remove\n" else Call.g_print "add\n") :: alternatingFrom (!b) n

/-- The sequence add, remove, add, ... of length `n`. -/
def alternating (n : Nat) : List Call := alternatingFrom false n

/-- Number of timer ticks in a schedule. -/
def ticks : List Event → Nat
  | [] => 0
  | Event.tick _ :: es => ticks es + 1
  | _ :: es => ticks es

/-- A world in which one Branch is attached: `main` has built the graph and
the timer has fired once. -/
def attached : World := (tick_cb Env.ok started).2

/-- The statements of `unlink_cb` after the latch has been won, for a
Branch with the fields of `s`. -/
def teardown (s : Sink) (w : World) : World :=
  let (sinkpad, w) := get_static_pad s.queue w
  let w := pad_unlink s.teepad sinkpad w
  let w := pad_unref sinkpad w
  let w := bin_remove s.queue w
  let w := bin_remove s.conv w
  let w := bin_remove s.sink w
  let w := set_state s.sink GstState.NULL w
  let w := set_state s.conv GstState.NULL w
  let w := set_state s.queue GstState.NULL w
  let w := object_unref s.queue w
  let w := object_unref s.conv w
  let w := object_unref s.sink w
  let w := release_request_pad s.teepad w
  let w := object_unref s.teepad w
  g_print "removed\n" w

/-- Fresh identities: every child, tee pad and pad link of the host was
created before `w.next`; and the host has a sink bin and a tee. -/
def World.wellFormed (w : World) : Bool :=
  w.vsbin.isSome && w.tee.isSome &&
  w.children.all (fun x => x < w.next) &&
  w.teePads.all (fun x => x < w.next) &&
  w.padLinks.all (fun l => l.1 < w.next && l.2 < w.next)

/-- Number of request pads of the tee that are linked to a peer. -/
def linkedPorts (w : World) : Nat :=
  (w.teePads.filter (fun p => w.padLinks.any (fun l => l.1 == p))).length

/-! ## The keep-alive branch -/

/-- The request pad `main` obtains for the keep-alive branch. -/
def keepalive_teepad : Obj := 6

/-- The queue of the keep-alive branch (`queue` in `main`). -/
def keepalive_queue : Obj := 4

/-- The fakesink of the keep-alive branch (`sink` in `main`). -/
def keepalive_sink : Obj := 5

/-- The call is `gst_pad_unlink` with `pad` as source pad. -/
def Call.unlinks (pad : Obj) : Call → Bool
  | Call.pad_unlink (some q) _ => q == pad
  | _ => false

/-- The call is `gst_element_release_request_pad` on `pad`. -/
def Call.releases (pad : Obj) : Call → Bool
  | Call.release_request_pad _ (some q) => q == pad
  | _ => false

/-- The call removes the element `e` from a bin. -/
def Call.removes (e : Obj) : Call → Bool
  | Call.bin_remove _ (some x) => x == e
  | _ => false

/-- The call touches the keep-alive branch destructively. -/
def Call.hitsKeepalive (c : Call) : Bool :=
  c.unlinks keepalive_teepad || c.releases keepalive_teepad ||
    c.removes keepalive_queue || c.removes keepalive_sink

/-- Every object a Branch refers to was created at or after `n`. -/
def Sink.above (n : Nat) (s : Sink) : Prop :=
  (∀ x : Nat, s.teepad = some x → n ≤ x) ∧ (∀ x : Nat, s.queue = some x → n ≤ x) ∧
  (∀ x : Nat, s.conv = some x → n ≤ x) ∧ (∀ x : Nat, s.sink = some x → n ≤ x)

/-- The invariant behind C3. -/
structure KeepInv (w : World) : Prop where
  vsbin : w.vsbin.isSome = true
  next : 7 ≤ w.next
  heap : ∀ s ∈ w.heap, Sink.above 7 s
  pad : keepalive_teepad ∈ w.teePads
  link : (keepalive_teepad, keepalive_queue) ∈ w.padLinks
  queue : keepalive_queue ∈ w.children
  sink : keepalive_sink ∈ w.children
  trace : w.trace.filter Call.hitsKeepalive = []

/-! ## Failure during attach -/

/-- The call undoes part of an attach: it removes a node from a bin, unlinks
a pad or releases a request pad. -/
def Call.isRollback : Call → Bool
  | Call.bin_remove _ _ => true
  | Call.pad_unlink _ _ => true
  | Call.release_request_pad _ _ => true
  | _ => false

/-- The framework answers of an attach in which the converter cannot be
constructed and everything else succeeds. -/
def Env.noConv : Env := { Env.ok with make_conv := false }

/-! ## The bus callback -/

/-- The calls of the error and warning cases up to the `g_free`s: the path
of the source element, the parsed message, the headline on stderr, the debug
detail on stderr when there is one. -/
def report_calls (m : GstMessage) : List Call :=
  [ Call.get_path_string m.src, Call.message_parse,
    Call.g_printerr ("ERROR: from element " ++ m.src ++ ": " ++ m.err_message ++ "\n") ] ++
  (match m.debug with
    | some d => [Call.g_printerr ("Additional debug info:\n" ++ d ++ "\n")]
    | none => []) ++
  [ Call.g_error_free, Call.g_free, Call.g_free ]

/-- A complete session with no timer tick: startup, then an end-of-stream
message ends the event loop, then shutdown. -/
def session_eos : Outcome × World :=
  main 2 ["dynamic-tee-vsink", "file:///clip.ogv"] StartEnv.ok
    [Event.message ⟨GstMessageType.EOS, "", "", none⟩]

/-- A complete session in which the timer fires once (a Branch is attached)
before the end-of-stream message. -/
def session_tick_eos : Outcome × World :=
  main 2 ["dynamic-tee-vsink", "file:///clip.ogv"] StartEnv.ok
    [Event.tick Env.ok, Event.message ⟨GstMessageType.EOS, "", "", none⟩]

/-- Number of `gst_element_request_pad` calls that returned `pad`. -/
def requestCount (pad : Obj) (t : List Call) : Nat :=
  (t.filter (fun c => match c with
    | Call.request_pad _ (some q) => q == pad
    | _ => false)).length

/-- Number of `gst_element_release_request_pad` calls on `pad`. -/
def releaseCount (pad : Obj) (t : List Call) : Nat := (t.filter (Call.releases pad)).length

/-! ## Theorems -/

/-! ## Frame lemmas: what each primitive leaves alone, and what it records -/

@[simp]
theorem call_next (c : Call) (w : World) : (World.call w c).next = w.next := rfl

@[simp]
theorem call_vsbin (c : Call) (w : World) : (World.call w c).vsbin = w.vsbin := rfl

@[simp]
theorem call_tee (c : Call) (w : World) : (World.call w c).tee = w.tee := rfl

@[simp]
theorem call_sinks (c : Call) (w : World) : (World.call w c).sinks = w.sinks := rfl

@[simp]
theorem call_heap (c : Call) (w : World) : (World.call w c).heap = w.heap := rfl

@[simp]
theorem call_children (c : Call) (w : World) : (World.call w c).children = w.children := rfl

@[simp]
theorem call_teePads (c : Call) (w : World) : (World.call w c).teePads = w.teePads := rfl

@[simp]
theorem call_padLinks (c : Call) (w : World) : (World.call w c).padLinks = w.padLinks := rfl

@[simp]
theorem call_trace (c : Call) (w : World) : (World.call w c).trace = w.trace ++ [c] := rfl

@[simp]
theorem g_print_next (s : String) (w : World) : (g_print s w).next = w.next := rfl

@[simp]
theorem g_print_vsbin (s : String) (w : World) : (g_print s w).vsbin = w.vsbin := rfl

@[simp]
theorem g_print_tee (s : String) (w : World) : (g_print s w).tee = w.tee := rfl

@[simp]
theorem g_print_sinks (s : String) (w : World) : (g_print s w).sinks = w.sinks := rfl

@[simp]
theorem g_print_heap (s : String) (w : World) : (g_print s w).heap = w.heap := rfl

@[simp]
theorem g_print_children (s : String) (w : World) : (g_print s w).children = w.children := rfl

@[simp]
theorem g_print_teePads (s : String) (w : World) : (g_print s w).teePads = w.teePads := rfl

@[simp]
theorem g_print_padLinks (s : String) (w : World) : (g_print s w).padLinks = w.padLinks := rfl

@[simp]
theorem g_print_trace (s : String) (w : World) : (g_print s w).trace = w.trace ++ [Call.g_print s] := rfl

@[simp]
theorem g_printerr_next (s : String) (w : World) : (g_printerr s w).next = w.next := rfl

@[simp]
theorem g_printerr_vsbin (s : String) (w : World) : (g_printerr s w).vsbin = w.vsbin := rfl

@[simp]
theorem g_printerr_tee (s : String) (w : World) : (g_printerr s w).tee = w.tee := rfl

@[simp]
theorem g_printerr_sinks (s : String) (w : World) : (g_printerr s w).sinks = w.sinks := rfl

@[simp]
theorem g_printerr_heap (s : String) (w : World) : (g_printerr s w).heap = w.heap := rfl

@[simp]
theorem g_printerr_children (s : String) (w : World) : (g_printerr s w).children = w.children := rfl

@[simp]
theorem g_printerr_teePads (s : String) (w : World) : (g_printerr s w).teePads = w.teePads := rfl

@[simp]
theorem g_printerr_padLinks (s : String) (w : World) : (g_printerr s w).padLinks = w.padLinks := rfl

@[simp]
theorem g_printerr_trace (s : String) (w : World) : (g_printerr s w).trace = w.trace ++ [Call.g_printerr s] := rfl

@[simp]
theorem get_static_pad_next (e : Option Obj) (w : World) : (get_static_pad e w).2.next = w.next := rfl

@[simp]
theorem get_static_pad_vsbin (e : Option Obj) (w : World) : (get_static_pad e w).2.vsbin = w.vsbin := rfl

@[simp]
theorem get_static_pad_tee (e : Option Obj) (w : World) : (get_static_pad e w).2.tee = w.tee := rfl

@[simp]
theorem get_static_pad_sinks (e : Option Obj) (w : World) : (get_static_pad e w).2.sinks = w.sinks := rfl

@[simp]
theorem get_static_pad_heap (e : Option Obj) (w : World) : (get_static_pad e w).2.heap = w.heap := rfl

@[simp]
theorem get_static_pad_children (e : Option Obj) (w : World) : (get_static_pad e w).2.children = w.children := rfl

@[simp]
theorem get_static_pad_teePads (e : Option Obj) (w : World) : (get_static_pad e w).2.teePads = w.teePads := rfl

@[simp]
theorem get_static_pad_padLinks (e : Option Obj) (w : World) : (get_static_pad e w).2.padLinks = w.padLinks := rfl

@[simp]
theorem get_static_pad_trace (e : Option Obj) (w : World) : (get_static_pad e w).2.trace = w.trace ++ [Call.get_static_pad e "sink"] := rfl

@[simp]
theorem pad_unlink_next (a b : Option Obj) (w : World) : (pad_unlink a b w).next = w.next := by
  simp only [pad_unlink, World.call]; split <;> rfl

@[simp]
theorem pad_unlink_vsbin (a b : Option Obj) (w : World) : (pad_unlink a b w).vsbin = w.vsbin := by
  simp only [pad_unlink, World.call]; split <;> rfl

@[simp]
theorem pad_unlink_tee (a b : Option Obj) (w : World) : (pad_unlink a b w).tee = w.tee := by
  simp only [pad_unlink, World.call]; split <;> rfl

@[simp]
theorem pad_unlink_sinks (a b : Option Obj) (w : World) : (pad_unlink a b w).sinks = w.sinks := by
  simp only [pad_unlink, World.call]; split <;> rfl

@[simp]
theorem pad_unlink_heap (a b : Option Obj) (w : World) : (pad_unlink a b w).heap = w.heap := by
  simp only [pad_unlink, World.call]; split <;> rfl

@[simp]
theorem pad_unlink_children (a b : Option Obj) (w : World) : (pad_unlink a b w).children = w.children := by
  simp only [pad_unlink, World.call]; split <;> rfl

@[simp]
theorem pad_unlink_teePads (a b : Option Obj) (w : World) : (pad_unlink a b w).teePads = w.teePads := by
  simp only [pad_unlink, World.call]; split <;> rfl

@[simp]
theorem pad_unlink_trace (a b : Option Obj) (w : World) : (pad_unlink a b w).trace = w.trace ++ [Call.pad_unlink a b] := by
  simp only [pad_unlink, World.call]; split <;> rfl

@[simp]
theorem pad_unref_next (o : Option Obj) (w : World) : (pad_unref o w).next = w.next := rfl

@[simp]
theorem pad_unref_vsbin (o : Option Obj) (w : World) : (pad_unref o w).vsbin = w.vsbin := rfl

@[simp]
theorem pad_unref_tee (o : Option Obj) (w : World) : (pad_unref o w).tee = w.tee := rfl

@[simp]
theorem pad_unref_sinks (o : Option Obj) (w : World) : (pad_unref o w).sinks = w.sinks := rfl

@[simp]
theorem pad_unref_heap (o : Option Obj) (w : World) : (pad_unref o w).heap = w.heap := rfl

@[simp]
theorem pad_unref_children (o : Option Obj) (w : World) : (pad_unref o w).children = w.children := rfl

@[simp]
theorem pad_unref_teePads (o : Option Obj) (w : World) : (pad_unref o w).teePads = w.teePads := rfl

@[simp]
theorem pad_unref_padLinks (o : Option Obj) (w : World) : (pad_unref o w).padLinks = w.padLinks := rfl

@[simp]
theorem pad_unref_trace (o : Option Obj) (w : World) : (pad_unref o w).trace = w.trace ++ [Call.pad_unref o] := rfl

@[simp]
theorem object_unref_next (o : Option Obj) (w : World) : (object_unref o w).next = w.next := rfl

@[simp]
theorem object_unref_vsbin (o : Option Obj) (w : World) : (object_unref o w).vsbin = w.vsbin := rfl

@[simp]
theorem object_unref_tee (o : Option Obj) (w : World) : (object_unref o w).tee = w.tee := rfl

@[simp]
theorem object_unref_sinks (o : Option Obj) (w : World) : (object_unref o w).sinks = w.sinks := rfl

@[simp]
theorem object_unref_heap (o : Option Obj) (w : World) : (object_unref o w).heap = w.heap := rfl

@[simp]
theorem object_unref_children (o : Option Obj) (w : World) : (object_unref o w).children = w.children := rfl

@[simp]
theorem object_unref_teePads (o : Option Obj) (w : World) : (object_unref o w).teePads = w.teePads := rfl

@[simp]
theorem object_unref_padLinks (o : Option Obj) (w : World) : (object_unref o w).padLinks = w.padLinks := rfl

@[simp]
theorem object_unref_trace (o : Option Obj) (w : World) : (object_unref o w).trace = w.trace ++ [Call.object_unref o] := rfl

@[simp]
theorem object_ref_next (o : Option Obj) (w : World) : (object_ref o w).2.next = w.next := rfl

@[simp]
theorem object_ref_vsbin (o : Option Obj) (w : World) : (object_ref o w).2.vsbin = w.vsbin := rfl

@[simp]
theorem object_ref_tee (o : Option Obj) (w : World) : (object_ref o w).2.tee = w.tee := rfl

@[simp]
theorem object_ref_sinks (o : Option Obj) (w : World) : (object_ref o w).2.sinks = w.sinks := rfl

@[simp]
theorem object_ref_heap (o : Option Obj) (w : World) : (object_ref o w).2.heap = w.heap := rfl

@[simp]
theorem object_ref_children (o : Option Obj) (w : World) : (object_ref o w).2.children = w.children := rfl

@[simp]
theorem object_ref_teePads (o : Option Obj) (w : World) : (object_ref o w).2.teePads = w.teePads := rfl

@[simp]
theorem object_ref_padLinks (o : Option Obj) (w : World) : (object_ref o w).2.padLinks = w.padLinks := rfl

@[simp]
theorem object_ref_trace (o : Option Obj) (w : World) : (object_ref o w).2.trace = w.trace ++ [Call.object_ref o] := rfl

@[simp]
theorem bin_remove_next (e : Option Obj) (w : World) : (bin_remove e w).next = w.next := by
  simp only [bin_remove, World.call]; split <;> (try split) <;> rfl

@[simp]
theorem bin_remove_vsbin (e : Option Obj) (w : World) : (bin_remove e w).vsbin = w.vsbin := by
  simp only [bin_remove, World.call]; split <;> (try split) <;> rfl

@[simp]
theorem bin_remove_tee (e : Option Obj) (w : World) : (bin_remove e w).tee = w.tee := by
  simp only [bin_remove, World.call]; split <;> (try split) <;> rfl

@[simp]
theorem bin_remove_sinks (e : Option Obj) (w : World) : (bin_remove e w).sinks = w.sinks := by
  simp only [bin_remove, World.call]; split <;> (try split) <;> rfl

@[simp]
theorem bin_remove_heap (e : Option Obj) (w : World) : (bin_remove e w).heap = w.heap := by
  simp only [bin_remove, World.call]; split <;> (try split) <;> rfl

@[simp]
theorem bin_remove_teePads (e : Option Obj) (w : World) : (bin_remove e w).teePads = w.teePads := by
  simp only [bin_remove, World.call]; split <;> (try split) <;> rfl

@[simp]
theorem bin_remove_trace (e : Option Obj) (w : World) : (bin_remove e w).trace = w.trace ++ [Call.bin_remove w.vsbin e] := by
  simp only [bin_remove, World.call]; split <;> (try split) <;> rfl

@[simp]
theorem set_state_next (e : Option Obj) (s : GstState) (w : World) : (set_state e s w).next = w.next := by
  simp only [set_state, World.call]; split <;> rfl

@[simp]
theorem set_state_vsbin (e : Option Obj) (s : GstState) (w : World) : (set_state e s w).vsbin = w.vsbin := by
  simp only [set_state, World.call]; split <;> rfl

@[simp]
theorem set_state_tee (e : Option Obj) (s : GstState) (w : World) : (set_state e s w).tee = w.tee := by
  simp only [set_state, World.call]; split <;> rfl

@[simp]
theorem set_state_sinks (e : Option Obj) (s : GstState) (w : World) : (set_state e s w).sinks = w.sinks := by
  simp only [set_state, World.call]; split <;> rfl

@[simp]
theorem set_state_heap (e : Option Obj) (s : GstState) (w : World) : (set_state e s w).heap = w.heap := by
  simp only [set_state, World.call]; split <;> rfl

@[simp]
theorem set_state_children (e : Option Obj) (s : GstState) (w : World) : (set_state e s w).children = w.children := by
  simp only [set_state, World.call]; split <;> rfl

@[simp]
theorem set_state_teePads (e : Option Obj) (s : GstState) (w : World) : (set_state e s w).teePads = w.teePads := by
  simp only [set_state, World.call]; split <;> rfl

@[simp]
theorem set_state_padLinks (e : Option Obj) (s : GstState) (w : World) : (set_state e s w).padLinks = w.padLinks := by
  simp only [set_state, World.call]; split <;> rfl

@[simp]
theorem set_state_trace (e : Option Obj) (s : GstState) (w : World) : (set_state e s w).trace = w.trace ++ [Call.set_state e s] := by
  simp only [set_state, World.call]; split <;> rfl

@[simp]
theorem release_request_pad_next (pad : Option Obj) (w : World) : (release_request_pad pad w).next = w.next := by
  simp only [release_request_pad, World.call]; split <;> rfl

@[simp]
theorem release_request_pad_vsbin (pad : Option Obj) (w : World) : (release_request_pad pad w).vsbin = w.vsbin := by
  simp only [release_request_pad, World.call]; split <;> rfl

@[simp]
theorem release_request_pad_tee (pad : Option Obj) (w : World) : (release_request_pad pad w).tee = w.tee := by
  simp only [release_request_pad, World.call]; split <;> rfl

@[simp]
theorem release_request_pad_sinks (pad : Option Obj) (w : World) : (release_request_pad pad w).sinks = w.sinks := by
  simp only [release_request_pad, World.call]; split <;> rfl

@[simp]
theorem release_request_pad_heap (pad : Option Obj) (w : World) : (release_request_pad pad w).heap = w.heap := by
  simp only [release_request_pad, World.call]; split <;> rfl

@[simp]
theorem release_request_pad_children (pad : Option Obj) (w : World) : (release_request_pad pad w).children = w.children := by
  simp only [release_request_pad, World.call]; split <;> rfl

@[simp]
theorem release_request_pad_trace (pad : Option Obj) (w : World) : (release_request_pad pad w).trace = w.trace ++ [Call.release_request_pad w.tee pad] := by
  simp only [release_request_pad, World.call]; split <;> rfl

@[simp]
theorem debug_bin_to_dot_file_next (l : String) (w : World) : (debug_bin_to_dot_file l w).next = w.next := rfl

@[simp]
theorem debug_bin_to_dot_file_vsbin (l : String) (w : World) : (debug_bin_to_dot_file l w).vsbin = w.vsbin := rfl

@[simp]
theorem debug_bin_to_dot_file_tee (l : String) (w : World) : (debug_bin_to_dot_file l w).tee = w.tee := rfl

@[simp]
theorem debug_bin_to_dot_file_sinks (l : String) (w : World) : (debug_bin_to_dot_file l w).sinks = w.sinks := rfl

@[simp]
theorem debug_bin_to_dot_file_heap (l : String) (w : World) : (debug_bin_to_dot_file l w).heap = w.heap := rfl

@[simp]
theorem debug_bin_to_dot_file_children (l : String) (w : World) : (debug_bin_to_dot_file l w).children = w.children := rfl

@[simp]
theorem debug_bin_to_dot_file_teePads (l : String) (w : World) : (debug_bin_to_dot_file l w).teePads = w.teePads := rfl

@[simp]
theorem debug_bin_to_dot_file_padLinks (l : String) (w : World) : (debug_bin_to_dot_file l w).padLinks = w.padLinks := rfl

@[simp]
theorem debug_bin_to_dot_file_trace (l : String) (w : World) : (debug_bin_to_dot_file l w).trace = w.trace ++ [Call.debug_bin_to_dot_file w.pipeline l] := rfl

@[simp]
theorem get_pad_template_next (w : World) : (get_pad_template w).next = w.next := rfl

@[simp]
theorem get_pad_template_vsbin (w : World) : (get_pad_template w).vsbin = w.vsbin := rfl

@[simp]
theorem get_pad_template_tee (w : World) : (get_pad_template w).tee = w.tee := rfl

@[simp]
theorem get_pad_template_sinks (w : World) : (get_pad_template w).sinks = w.sinks := rfl

@[simp]
theorem get_pad_template_heap (w : World) : (get_pad_template w).heap = w.heap := rfl

@[simp]
theorem get_pad_template_children (w : World) : (get_pad_template w).children = w.children := rfl

@[simp]
theorem get_pad_template_teePads (w : World) : (get_pad_template w).teePads = w.teePads := rfl

@[simp]
theorem get_pad_template_padLinks (w : World) : (get_pad_template w).padLinks = w.padLinks := rfl

@[simp]
theorem get_pad_template_trace (w : World) : (get_pad_template w).trace = w.trace ++ [Call.get_pad_template w.tee "src_%u"] := rfl

@[simp]
theorem request_pad_vsbin (w : World) : (request_pad w).2.vsbin = w.vsbin := by
  simp only [request_pad, World.call]; split <;> rfl

@[simp]
theorem request_pad_tee (w : World) : (request_pad w).2.tee = w.tee := by
  simp only [request_pad, World.call]; split <;> rfl

@[simp]
theorem request_pad_sinks (w : World) : (request_pad w).2.sinks = w.sinks := by
  simp only [request_pad, World.call]; split <;> rfl

@[simp]
theorem request_pad_heap (w : World) : (request_pad w).2.heap = w.heap := by
  simp only [request_pad, World.call]; split <;> rfl

@[simp]
theorem request_pad_children (w : World) : (request_pad w).2.children = w.children := by
  simp only [request_pad, World.call]; split <;> rfl

@[simp]
theorem request_pad_padLinks (w : World) : (request_pad w).2.padLinks = w.padLinks := by
  simp only [request_pad, World.call]; split <;> rfl

@[simp]
theorem request_pad_trace (w : World) : (request_pad w).2.trace = w.trace ++ [Call.request_pad w.tee (request_pad w).1] := by
  simp only [request_pad, World.call]; cases w.tee <;> rfl

@[simp]
theorem factory_make_vsbin (ok : Bool) (f : String) (n : Option String) (w : World) : (factory_make ok f n w).2.vsbin = w.vsbin := by
  simp only [factory_make, World.call]; split <;> rfl

@[simp]
theorem factory_make_tee (ok : Bool) (f : String) (n : Option String) (w : World) : (factory_make ok f n w).2.tee = w.tee := by
  simp only [factory_make, World.call]; split <;> rfl

@[simp]
theorem factory_make_sinks (ok : Bool) (f : String) (n : Option String) (w : World) : (factory_make ok f n w).2.sinks = w.sinks := by
  simp only [factory_make, World.call]; split <;> rfl

@[simp]
theorem factory_make_heap (ok : Bool) (f : String) (n : Option String) (w : World) : (factory_make ok f n w).2.heap = w.heap := by
  simp only [factory_make, World.call]; split <;> rfl

@[simp]
theorem factory_make_children (ok : Bool) (f : String) (n : Option String) (w : World) : (factory_make ok f n w).2.children = w.children := by
  simp only [factory_make, World.call]; split <;> rfl

@[simp]
theorem factory_make_teePads (ok : Bool) (f : String) (n : Option String) (w : World) : (factory_make ok f n w).2.teePads = w.teePads := by
  simp only [factory_make, World.call]; split <;> rfl

@[simp]
theorem factory_make_padLinks (ok : Bool) (f : String) (n : Option String) (w : World) : (factory_make ok f n w).2.padLinks = w.padLinks := by
  simp only [factory_make, World.call]; split <;> rfl

@[simp]
theorem factory_make_trace (ok : Bool) (f : String) (n : Option String) (w : World) : (factory_make ok f n w).2.trace = w.trace ++ [Call.factory_make f n (factory_make ok f n w).1] := by
  simp only [factory_make, World.call]; split <;> rfl

@[simp]
theorem pipeline_new_vsbin (ok : Bool) (w : World) : (pipeline_new ok w).2.vsbin = w.vsbin := by
  simp only [pipeline_new, World.call]; split <;> rfl

@[simp]
theorem pipeline_new_tee (ok : Bool) (w : World) : (pipeline_new ok w).2.tee = w.tee := by
  simp only [pipeline_new, World.call]; split <;> rfl

@[simp]
theorem pipeline_new_sinks (ok : Bool) (w : World) : (pipeline_new ok w).2.sinks = w.sinks := by
  simp only [pipeline_new, World.call]; split <;> rfl

@[simp]
theorem pipeline_new_heap (ok : Bool) (w : World) : (pipeline_new ok w).2.heap = w.heap := by
  simp only [pipeline_new, World.call]; split <;> rfl

@[simp]
theorem pipeline_new_children (ok : Bool) (w : World) : (pipeline_new ok w).2.children = w.children := by
  simp only [pipeline_new, World.call]; split <;> rfl

@[simp]
theorem pipeline_new_teePads (ok : Bool) (w : World) : (pipeline_new ok w).2.teePads = w.teePads := by
  simp only [pipeline_new, World.call]; split <;> rfl

@[simp]
theorem pipeline_new_padLinks (ok : Bool) (w : World) : (pipeline_new ok w).2.padLinks = w.padLinks := by
  simp only [pipeline_new, World.call]; split <;> rfl

@[simp]
theorem pipeline_new_trace (ok : Bool) (w : World) : (pipeline_new ok w).2.trace = w.trace ++ [Call.pipeline_new (pipeline_new ok w).1] := by
  simp only [pipeline_new, World.call]; split <;> rfl

@[simp]
theorem bin_add_next (ok : Bool) (bin : Option Obj) (e : Obj) (w : World) : (bin_add ok bin e w).next = w.next := by
  simp only [bin_add, World.call]; split <;> rfl

@[simp]
theorem bin_add_vsbin (ok : Bool) (bin : Option Obj) (e : Obj) (w : World) : (bin_add ok bin e w).vsbin = w.vsbin := by
  simp only [bin_add, World.call]; split <;> rfl

@[simp]
theorem bin_add_tee (ok : Bool) (bin : Option Obj) (e : Obj) (w : World) : (bin_add ok bin e w).tee = w.tee := by
  simp only [bin_add, World.call]; split <;> rfl

@[simp]
theorem bin_add_sinks (ok : Bool) (bin : Option Obj) (e : Obj) (w : World) : (bin_add ok bin e w).sinks = w.sinks := by
  simp only [bin_add, World.call]; split <;> rfl

@[simp]
theorem bin_add_heap (ok : Bool) (bin : Option Obj) (e : Obj) (w : World) : (bin_add ok bin e w).heap = w.heap := by
  simp only [bin_add, World.call]; split <;> rfl

@[simp]
theorem bin_add_teePads (ok : Bool) (bin : Option Obj) (e : Obj) (w : World) : (bin_add ok bin e w).teePads = w.teePads := by
  simp only [bin_add, World.call]; split <;> rfl

@[simp]
theorem bin_add_padLinks (ok : Bool) (bin : Option Obj) (e : Obj) (w : World) : (bin_add ok bin e w).padLinks = w.padLinks := by
  simp only [bin_add, World.call]; split <;> rfl

@[simp]
theorem bin_add_trace (ok : Bool) (bin : Option Obj) (e : Obj) (w : World) : (bin_add ok bin e w).trace = w.trace ++ [Call.bin_add bin e] := by
  simp only [bin_add, World.call]; split <;> rfl

@[simp]
theorem element_link_next (ok : Bool) (a b : Obj) (w : World) : (element_link ok a b w).2.next = w.next := by
  simp only [element_link, World.call]; split <;> rfl

@[simp]
theorem element_link_vsbin (ok : Bool) (a b : Obj) (w : World) : (element_link ok a b w).2.vsbin = w.vsbin := by
  simp only [element_link, World.call]; split <;> rfl

@[simp]
theorem element_link_tee (ok : Bool) (a b : Obj) (w : World) : (element_link ok a b w).2.tee = w.tee := by
  simp only [element_link, World.call]; split <;> rfl

@[simp]
theorem element_link_sinks (ok : Bool) (a b : Obj) (w : World) : (element_link ok a b w).2.sinks = w.sinks := by
  simp only [element_link, World.call]; split <;> rfl

@[simp]
theorem element_link_heap (ok : Bool) (a b : Obj) (w : World) : (element_link ok a b w).2.heap = w.heap := by
  simp only [element_link, World.call]; split <;> rfl

@[simp]
theorem element_link_children (ok : Bool) (a b : Obj) (w : World) : (element_link ok a b w).2.children = w.children := by
  simp only [element_link, World.call]; split <;> rfl

@[simp]
theorem element_link_teePads (ok : Bool) (a b : Obj) (w : World) : (element_link ok a b w).2.teePads = w.teePads := by
  simp only [element_link, World.call]; split <;> rfl

@[simp]
theorem element_link_padLinks (ok : Bool) (a b : Obj) (w : World) : (element_link ok a b w).2.padLinks = w.padLinks := by
  simp only [element_link, World.call]; split <;> rfl

@[simp]
theorem element_link_trace (ok : Bool) (a b : Obj) (w : World) : (element_link ok a b w).2.trace = w.trace ++ [Call.element_link a b] := by
  simp only [element_link, World.call]; split <;> rfl

@[simp]
theorem sync_state_with_parent_next (e : Option Obj) (w : World) : (sync_state_with_parent e w).next = w.next := by
  simp only [sync_state_with_parent, World.call]; split <;> (try split) <;> rfl

@[simp]
theorem sync_state_with_parent_vsbin (e : Option Obj) (w : World) : (sync_state_with_parent e w).vsbin = w.vsbin := by
  simp only [sync_state_with_parent, World.call]; split <;> (try split) <;> rfl

@[simp]
theorem sync_state_with_parent_tee (e : Option Obj) (w : World) : (sync_state_with_parent e w).tee = w.tee := by
  simp only [sync_state_with_parent, World.call]; split <;> (try split) <;> rfl

@[simp]
theorem sync_state_with_parent_sinks (e : Option Obj) (w : World) : (sync_state_with_parent e w).sinks = w.sinks := by
  simp only [sync_state_with_parent, World.call]; split <;> (try split) <;> rfl

@[simp]
theorem sync_state_with_parent_heap (e : Option Obj) (w : World) : (sync_state_with_parent e w).heap = w.heap := by
  simp only [sync_state_with_parent, World.call]; split <;> (try split) <;> rfl

@[simp]
theorem sync_state_with_parent_children (e : Option Obj) (w : World) : (sync_state_with_parent e w).children = w.children := by
  simp only [sync_state_with_parent, World.call]; split <;> (try split) <;> rfl

@[simp]
theorem sync_state_with_parent_teePads (e : Option Obj) (w : World) : (sync_state_with_parent e w).teePads = w.teePads := by
  simp only [sync_state_with_parent, World.call]; split <;> (try split) <;> rfl

@[simp]
theorem sync_state_with_parent_padLinks (e : Option Obj) (w : World) : (sync_state_with_parent e w).padLinks = w.padLinks := by
  simp only [sync_state_with_parent, World.call]; split <;> (try split) <;> rfl

@[simp]
theorem sync_state_with_parent_trace (e : Option Obj) (w : World) : (sync_state_with_parent e w).trace = w.trace ++ [Call.sync_state_with_parent e] := by
  simp only [sync_state_with_parent, World.call]; split <;> (try split) <;> rfl

@[simp]
theorem pad_link_next (ok : Bool) (a b : Option Obj) (w : World) : (pad_link ok a b w).next = w.next := by
  simp only [pad_link, World.call]; split <;> (try split) <;> rfl

@[simp]
theorem pad_link_vsbin (ok : Bool) (a b : Option Obj) (w : World) : (pad_link ok a b w).vsbin = w.vsbin := by
  simp only [pad_link, World.call]; split <;> (try split) <;> rfl

@[simp]
theorem pad_link_tee (ok : Bool) (a b : Option Obj) (w : World) : (pad_link ok a b w).tee = w.tee := by
  simp only [pad_link, World.call]; split <;> (try split) <;> rfl

@[simp]
theorem pad_link_sinks (ok : Bool) (a b : Option Obj) (w : World) : (pad_link ok a b w).sinks = w.sinks := by
  simp only [pad_link, World.call]; split <;> (try split) <;> rfl

@[simp]
theorem pad_link_heap (ok : Bool) (a b : Option Obj) (w : World) : (pad_link ok a b w).heap = w.heap := by
  simp only [pad_link, World.call]; split <;> (try split) <;> rfl

@[simp]
theorem pad_link_children (ok : Bool) (a b : Option Obj) (w : World) : (pad_link ok a b w).children = w.children := by
  simp only [pad_link, World.call]; split <;> (try split) <;> rfl

@[simp]
theorem pad_link_teePads (ok : Bool) (a b : Option Obj) (w : World) : (pad_link ok a b w).teePads = w.teePads := by
  simp only [pad_link, World.call]; split <;> (try split) <;> rfl

@[simp]
theorem pad_link_trace (ok : Bool) (a b : Option Obj) (w : World) : (pad_link ok a b w).trace = w.trace ++ [Call.pad_link a b] := by
  simp only [pad_link, World.call]; split <;> (try split) <;> rfl

@[simp]
theorem pad_add_probe_next (pad : Option Obj) (d : Nat) (w : World) : (pad_add_probe pad d w).next = w.next := by
  simp only [pad_add_probe, World.call]; split <;> rfl

@[simp]
theorem pad_add_probe_vsbin (pad : Option Obj) (d : Nat) (w : World) : (pad_add_probe pad d w).vsbin = w.vsbin := by
  simp only [pad_add_probe, World.call]; split <;> rfl

@[simp]
theorem pad_add_probe_tee (pad : Option Obj) (d : Nat) (w : World) : (pad_add_probe pad d w).tee = w.tee := by
  simp only [pad_add_probe, World.call]; split <;> rfl

@[simp]
theorem pad_add_probe_sinks (pad : Option Obj) (d : Nat) (w : World) : (pad_add_probe pad d w).sinks = w.sinks := by
  simp only [pad_add_probe, World.call]; split <;> rfl

@[simp]
theorem pad_add_probe_heap (pad : Option Obj) (d : Nat) (w : World) : (pad_add_probe pad d w).heap = w.heap := by
  simp only [pad_add_probe, World.call]; split <;> rfl

@[simp]
theorem pad_add_probe_children (pad : Option Obj) (d : Nat) (w : World) : (pad_add_probe pad d w).children = w.children := by
  simp only [pad_add_probe, World.call]; split <;> rfl

@[simp]
theorem pad_add_probe_teePads (pad : Option Obj) (d : Nat) (w : World) : (pad_add_probe pad d w).teePads = w.teePads := by
  simp only [pad_add_probe, World.call]; split <;> rfl

@[simp]
theorem pad_add_probe_padLinks (pad : Option Obj) (d : Nat) (w : World) : (pad_add_probe pad d w).padLinks = w.padLinks := by
  simp only [pad_add_probe, World.call]; split <;> rfl

@[simp]
theorem pad_add_probe_trace (pad : Option Obj) (d : Nat) (w : World) : (pad_add_probe pad d w).trace = w.trace ++ [Call.pad_add_probe pad d] := by
  simp only [pad_add_probe, World.call]; split <;> rfl

@[simp]
theorem main_loop_quit_next (w : World) : (main_loop_quit w).next = w.next := rfl

@[simp]
theorem main_loop_quit_vsbin (w : World) : (main_loop_quit w).vsbin = w.vsbin := rfl

@[simp]
theorem main_loop_quit_tee (w : World) : (main_loop_quit w).tee = w.tee := rfl

@[simp]
theorem main_loop_quit_sinks (w : World) : (main_loop_quit w).sinks = w.sinks := rfl

@[simp]
theorem main_loop_quit_heap (w : World) : (main_loop_quit w).heap = w.heap := rfl

@[simp]
theorem main_loop_quit_children (w : World) : (main_loop_quit w).children = w.children := rfl

@[simp]
theorem main_loop_quit_teePads (w : World) : (main_loop_quit w).teePads = w.teePads := rfl

@[simp]
theorem main_loop_quit_padLinks (w : World) : (main_loop_quit w).padLinks = w.padLinks := rfl

@[simp]
theorem main_loop_quit_trace (w : World) : (main_loop_quit w).trace = w.trace ++ [Call.main_loop_quit] := rfl

@[simp]
theorem g_new0_next (w : World) : (g_new0 w).2.next = w.next := rfl

@[simp]
theorem g_new0_vsbin (w : World) : (g_new0 w).2.vsbin = w.vsbin := rfl

@[simp]
theorem g_new0_tee (w : World) : (g_new0 w).2.tee = w.tee := rfl

@[simp]
theorem g_new0_sinks (w : World) : (g_new0 w).2.sinks = w.sinks := rfl

@[simp]
theorem g_new0_children (w : World) : (g_new0 w).2.children = w.children := rfl

@[simp]
theorem g_new0_teePads (w : World) : (g_new0 w).2.teePads = w.teePads := rfl

@[simp]
theorem g_new0_padLinks (w : World) : (g_new0 w).2.padLinks = w.padLinks := rfl

@[simp]
theorem g_new0_trace (w : World) : (g_new0 w).2.trace = w.trace := rfl

@[simp]
theorem store_next (p : Nat) (s : Sink) (w : World) : (World.store w p s).next = w.next := rfl

@[simp]
theorem store_vsbin (p : Nat) (s : Sink) (w : World) : (World.store w p s).vsbin = w.vsbin := rfl

@[simp]
theorem store_tee (p : Nat) (s : Sink) (w : World) : (World.store w p s).tee = w.tee := rfl

@[simp]
theorem store_sinks (p : Nat) (s : Sink) (w : World) : (World.store w p s).sinks = w.sinks := rfl

@[simp]
theorem store_children (p : Nat) (s : Sink) (w : World) : (World.store w p s).children = w.children := rfl

@[simp]
theorem store_teePads (p : Nat) (s : Sink) (w : World) : (World.store w p s).teePads = w.teePads := rfl

@[simp]
theorem store_padLinks (p : Nat) (s : Sink) (w : World) : (World.store w p s).padLinks = w.padLinks := rfl

@[simp]
theorem store_trace (p : Nat) (s : Sink) (w : World) : (World.store w p s).trace = w.trace := rfl

@[simp]
theorem bin_add_many_next (bin : Option Obj) (l : List (Bool × Option Obj)) (w : World) :
    (bin_add_many bin l w).next = w.next := by
  induction l generalizing w with
  | nil => rfl
  | cons a l ih => obtain ⟨ok, _ | e⟩ := a <;> simp [bin_add_many, ih]

@[simp]
theorem bin_add_many_vsbin (bin : Option Obj) (l : List (Bool × Option Obj)) (w : World) :
    (bin_add_many bin l w).vsbin = w.vsbin := by
  induction l generalizing w with
  | nil => rfl
  | cons a l ih => obtain ⟨ok, _ | e⟩ := a <;> simp [bin_add_many, ih]

@[simp]
theorem bin_add_many_tee (bin : Option Obj) (l : List (Bool × Option Obj)) (w : World) :
    (bin_add_many bin l w).tee = w.tee := by
  induction l generalizing w with
  | nil => rfl
  | cons a l ih => obtain ⟨ok, _ | e⟩ := a <;> simp [bin_add_many, ih]

@[simp]
theorem bin_add_many_sinks (bin : Option Obj) (l : List (Bool × Option Obj)) (w : World) :
    (bin_add_many bin l w).sinks = w.sinks := by
  induction l generalizing w with
  | nil => rfl
  | cons a l ih => obtain ⟨ok, _ | e⟩ := a <;> simp [bin_add_many, ih]

@[simp]
theorem bin_add_many_heap (bin : Option Obj) (l : List (Bool × Option Obj)) (w : World) :
    (bin_add_many bin l w).heap = w.heap := by
  induction l generalizing w with
  | nil => rfl
  | cons a l ih => obtain ⟨ok, _ | e⟩ := a <;> simp [bin_add_many, ih]

@[simp]
theorem bin_add_many_teePads (bin : Option Obj) (l : List (Bool × Option Obj)) (w : World) :
    (bin_add_many bin l w).teePads = w.teePads := by
  induction l generalizing w with
  | nil => rfl
  | cons a l ih => obtain ⟨ok, _ | e⟩ := a <;> simp [bin_add_many, ih]

@[simp]
theorem bin_add_many_padLinks (bin : Option Obj) (l : List (Bool × Option Obj)) (w : World) :
    (bin_add_many bin l w).padLinks = w.padLinks := by
  induction l generalizing w with
  | nil => rfl
  | cons a l ih => obtain ⟨ok, _ | e⟩ := a <;> simp [bin_add_many, ih]

@[simp]
theorem link_many_loop_next (e1 : Obj) (l : List (Bool × Option Obj)) (w : World) :
    (link_many_loop e1 l w).2.next = w.next := by
  induction l generalizing w e1 with
  | nil => rfl
  | cons a l ih =>
    obtain ⟨ok, _ | e⟩ := a
    · rfl
    · cases ok <;> simp [link_many_loop, element_link, World.call, ih]

@[simp]
theorem link_many_loop_vsbin (e1 : Obj) (l : List (Bool × Option Obj)) (w : World) :
    (link_many_loop e1 l w).2.vsbin = w.vsbin := by
  induction l generalizing w e1 with
  | nil => rfl
  | cons a l ih =>
    obtain ⟨ok, _ | e⟩ := a
    · rfl
    · cases ok <;> simp [link_many_loop, element_link, World.call, ih]

@[simp]
theorem link_many_loop_tee (e1 : Obj) (l : List (Bool × Option Obj)) (w : World) :
    (link_many_loop e1 l w).2.tee = w.tee := by
  induction l generalizing w e1 with
  | nil => rfl
  | cons a l ih =>
    obtain ⟨ok, _ | e⟩ := a
    · rfl
    · cases ok <;> simp [link_many_loop, element_link, World.call, ih]

@[simp]
theorem link_many_loop_sinks (e1 : Obj) (l : List (Bool × Option Obj)) (w : World) :
    (link_many_loop e1 l w).2.sinks = w.sinks := by
  induction l generalizing w e1 with
  | nil => rfl
  | cons a l ih =>
    obtain ⟨ok, _ | e⟩ := a
    · rfl
    · cases ok <;> simp [link_many_loop, element_link, World.call, ih]

@[simp]
theorem link_many_loop_heap (e1 : Obj) (l : List (Bool × Option Obj)) (w : World) :
    (link_many_loop e1 l w).2.heap = w.heap := by
  induction l generalizing w e1 with
  | nil => rfl
  | cons a l ih =>
    obtain ⟨ok, _ | e⟩ := a
    · rfl
    · cases ok <;> simp [link_many_loop, element_link, World.call, ih]

@[simp]
theorem link_many_loop_children (e1 : Obj) (l : List (Bool × Option Obj)) (w : World) :
    (link_many_loop e1 l w).2.children = w.children := by
  induction l generalizing w e1 with
  | nil => rfl
  | cons a l ih =>
    obtain ⟨ok, _ | e⟩ := a
    · rfl
    · cases ok <;> simp [link_many_loop, element_link, World.call, ih]

@[simp]
theorem link_many_loop_teePads (e1 : Obj) (l : List (Bool × Option Obj)) (w : World) :
    (link_many_loop e1 l w).2.teePads = w.teePads := by
  induction l generalizing w e1 with
  | nil => rfl
  | cons a l ih =>
    obtain ⟨ok, _ | e⟩ := a
    · rfl
    · cases ok <;> simp [link_many_loop, element_link, World.call, ih]

@[simp]
theorem link_many_loop_padLinks (e1 : Obj) (l : List (Bool × Option Obj)) (w : World) :
    (link_many_loop e1 l w).2.padLinks = w.padLinks := by
  induction l generalizing w e1 with
  | nil => rfl
  | cons a l ih =>
    obtain ⟨ok, _ | e⟩ := a
    · rfl
    · cases ok <;> simp [link_many_loop, element_link, World.call, ih]

@[simp]
theorem element_link_many_next (e1 : Option Obj) (l : List (Bool × Option Obj))
    (w : World) : (element_link_many e1 l w).2.next = w.next := by
  unfold element_link_many
  split
  · exact link_many_loop_next _ _ _
  · rfl

@[simp]
theorem element_link_many_vsbin (e1 : Option Obj) (l : List (Bool × Option Obj))
    (w : World) : (element_link_many e1 l w).2.vsbin = w.vsbin := by
  unfold element_link_many
  split
  · exact link_many_loop_vsbin _ _ _
  · rfl

@[simp]
theorem element_link_many_tee (e1 : Option Obj) (l : List (Bool × Option Obj))
    (w : World) : (element_link_many e1 l w).2.tee = w.tee := by
  unfold element_link_many
  split
  · exact link_many_loop_tee _ _ _
  · rfl

@[simp]
theorem element_link_many_sinks (e1 : Option Obj) (l : List (Bool × Option Obj))
    (w : World) : (element_link_many e1 l w).2.sinks = w.sinks := by
  unfold element_link_many
  split
  · exact link_many_loop_sinks _ _ _
  · rfl

@[simp]
theorem element_link_many_heap (e1 : Option Obj) (l : List (Bool × Option Obj))
    (w : World) : (element_link_many e1 l w).2.heap = w.heap := by
  unfold element_link_many
  split
  · exact link_many_loop_heap _ _ _
  · rfl

@[simp]
theorem element_link_many_children (e1 : Option Obj) (l : List (Bool × Option Obj))
    (w : World) : (element_link_many e1 l w).2.children = w.children := by
  unfold element_link_many
  split
  · exact link_many_loop_children _ _ _
  · rfl

@[simp]
theorem element_link_many_teePads (e1 : Option Obj) (l : List (Bool × Option Obj))
    (w : World) : (element_link_many e1 l w).2.teePads = w.teePads := by
  unfold element_link_many
  split
  · exact link_many_loop_teePads _ _ _
  · rfl

@[simp]
theorem element_link_many_padLinks (e1 : Option Obj) (l : List (Bool × Option Obj))
    (w : World) : (element_link_many e1 l w).2.padLinks = w.padLinks := by
  unfold element_link_many
  split
  · exact link_many_loop_padLinks _ _ _
  · rfl

@[simp]
theorem compare_and_exchange_removing_next (p : Nat) (a b : Bool) (w : World) :
    (compare_and_exchange_removing p a b w).2.next = w.next := by
  simp only [compare_and_exchange_removing, World.store]; split <;> rfl

@[simp]
theorem compare_and_exchange_removing_vsbin (p : Nat) (a b : Bool) (w : World) :
    (compare_and_exchange_removing p a b w).2.vsbin = w.vsbin := by
  simp only [compare_and_exchange_removing, World.store]; split <;> rfl

@[simp]
theorem compare_and_exchange_removing_tee (p : Nat) (a b : Bool) (w : World) :
    (compare_and_exchange_removing p a b w).2.tee = w.tee := by
  simp only [compare_and_exchange_removing, World.store]; split <;> rfl

@[simp]
theorem compare_and_exchange_removing_sinks (p : Nat) (a b : Bool) (w : World) :
    (compare_and_exchange_removing p a b w).2.sinks = w.sinks := by
  simp only [compare_and_exchange_removing, World.store]; split <;> rfl

@[simp]
theorem compare_and_exchange_removing_children (p : Nat) (a b : Bool) (w : World) :
    (compare_and_exchange_removing p a b w).2.children = w.children := by
  simp only [compare_and_exchange_removing, World.store]; split <;> rfl

@[simp]
theorem compare_and_exchange_removing_teePads (p : Nat) (a b : Bool) (w : World) :
    (compare_and_exchange_removing p a b w).2.teePads = w.teePads := by
  simp only [compare_and_exchange_removing, World.store]; split <;> rfl

@[simp]
theorem compare_and_exchange_removing_padLinks (p : Nat) (a b : Bool) (w : World) :
    (compare_and_exchange_removing p a b w).2.padLinks = w.padLinks := by
  simp only [compare_and_exchange_removing, World.store]; split <;> rfl

@[simp]
theorem print_report_next (m : GstMessage) (w : World) :
    (print_report m w).next = w.next := by
  simp only [print_report]; split <;> simp

@[simp]
theorem print_report_vsbin (m : GstMessage) (w : World) :
    (print_report m w).vsbin = w.vsbin := by
  simp only [print_report]; split <;> simp

@[simp]
theorem print_report_tee (m : GstMessage) (w : World) :
    (print_report m w).tee = w.tee := by
  simp only [print_report]; split <;> simp

@[simp]
theorem print_report_sinks (m : GstMessage) (w : World) :
    (print_report m w).sinks = w.sinks := by
  simp only [print_report]; split <;> simp

@[simp]
theorem print_report_heap (m : GstMessage) (w : World) :
    (print_report m w).heap = w.heap := by
  simp only [print_report]; split <;> simp

@[simp]
theorem print_report_children (m : GstMessage) (w : World) :
    (print_report m w).children = w.children := by
  simp only [print_report]; split <;> simp

@[simp]
theorem print_report_teePads (m : GstMessage) (w : World) :
    (print_report m w).teePads = w.teePads := by
  simp only [print_report]; split <;> simp

@[simp]
theorem print_report_padLinks (m : GstMessage) (w : World) :
    (print_report m w).padLinks = w.padLinks := by
  simp only [print_report]; split <;> simp

@[simp]
theorem compare_and_exchange_removing_trace (p : Nat) (a b : Bool) (w : World) :
    (compare_and_exchange_removing p a b w).2.trace = w.trace := by
  simp only [compare_and_exchange_removing, World.store]; split <;> rfl

@[simp]
theorem call_deref (c : Call) (w : World) (q : Nat) :
    World.deref (World.call w c) q = w.deref q := by
  simp [World.deref]

@[simp]
theorem g_print_deref (s : String) (w : World) (q : Nat) :
    World.deref (g_print s w) q = w.deref q := by
  simp [World.deref]

@[simp]
theorem g_printerr_deref (s : String) (w : World) (q : Nat) :
    World.deref (g_printerr s w) q = w.deref q := by
  simp [World.deref]

@[simp]
theorem get_static_pad_deref (e : Option Obj) (w : World) (q : Nat) :
    World.deref (get_static_pad e w).2 q = w.deref q := by
  simp [World.deref]

@[simp]
theorem pad_unlink_deref (a b : Option Obj) (w : World) (q : Nat) :
    World.deref (pad_unlink a b w) q = w.deref q := by
  simp [World.deref]

@[simp]
theorem pad_unref_deref (o : Option Obj) (w : World) (q : Nat) :
    World.deref (pad_unref o w) q = w.deref q := by
  simp [World.deref]

@[simp]
theorem object_unref_deref (o : Option Obj) (w : World) (q : Nat) :
    World.deref (object_unref o w) q = w.deref q := by
  simp [World.deref]

@[simp]
theorem object_ref_deref (o : Option Obj) (w : World) (q : Nat) :
    World.deref (object_ref o w).2 q = w.deref q := by
  simp [World.deref]

@[simp]
theorem bin_remove_deref (e : Option Obj) (w : World) (q : Nat) :
    World.deref (bin_remove e w) q = w.deref q := by
  simp [World.deref]

@[simp]
theorem set_state_deref (e : Option Obj) (s : GstState) (w : World) (q : Nat) :
    World.deref (set_state e s w) q = w.deref q := by
  simp [World.deref]

@[simp]
theorem release_request_pad_deref (pad : Option Obj) (w : World) (q : Nat) :
    World.deref (release_request_pad pad w) q = w.deref q := by
  simp [World.deref]

@[simp]
theorem debug_bin_to_dot_file_deref (l : String) (w : World) (q : Nat) :
    World.deref (debug_bin_to_dot_file l w) q = w.deref q := by
  simp [World.deref]

@[simp]
theorem get_pad_template_deref (w : World) (q : Nat) :
    World.deref (get_pad_template w) q = w.deref q := by
  simp [World.deref]

@[simp]
theorem request_pad_deref (w : World) (q : Nat) :
    World.deref (request_pad w).2 q = w.deref q := by
  simp [World.deref]

@[simp]
theorem factory_make_deref (ok : Bool) (f : String) (n : Option String) (w : World) (q : Nat) :
    World.deref (factory_make ok f n w).2 q = w.deref q := by
  simp [World.deref]

@[simp]
theorem pipeline_new_deref (ok : Bool) (w : World) (q : Nat) :
    World.deref (pipeline_new ok w).2 q = w.deref q := by
  simp [World.deref]

@[simp]
theorem bin_add_deref (ok : Bool) (bin : Option Obj) (e : Obj) (w : World) (q : Nat) :
    World.deref (bin_add ok bin e w) q = w.deref q := by
  simp [World.deref]

@[simp]
theorem element_link_deref (ok : Bool) (a b : Obj) (w : World) (q : Nat) :
    World.deref (element_link ok a b w).2 q = w.deref q := by
  simp [World.deref]

@[simp]
theorem sync_state_with_parent_deref (e : Option Obj) (w : World) (q : Nat) :
    World.deref (sync_state_with_parent e w) q = w.deref q := by
  simp [World.deref]

@[simp]
theorem pad_link_deref (ok : Bool) (a b : Option Obj) (w : World) (q : Nat) :
    World.deref (pad_link ok a b w) q = w.deref q := by
  simp [World.deref]

@[simp]
theorem pad_add_probe_deref (pad : Option Obj) (d : Nat) (w : World) (q : Nat) :
    World.deref (pad_add_probe pad d w) q = w.deref q := by
  simp [World.deref]

@[simp]
theorem main_loop_quit_deref (w : World) (q : Nat) :
    World.deref (main_loop_quit w) q = w.deref q := by
  simp [World.deref]

@[simp]
theorem bin_add_many_deref (bin : Option Obj) (l : List (Bool × Option Obj)) (w : World)
    (q : Nat) : World.deref (bin_add_many bin l w) q = w.deref q := by
  simp [World.deref]

@[simp]
theorem element_link_many_deref (e1 : Option Obj) (l : List (Bool × Option Obj))
    (w : World) (q : Nat) : World.deref (element_link_many e1 l w).2 q = w.deref q := by
  simp [World.deref]

@[simp]
theorem print_report_deref (m : GstMessage) (w : World) (q : Nat) :
    World.deref (print_report m w) q = w.deref q := by
  simp [World.deref]

@[simp]
theorem get_static_pad_fst (e : Option Obj) (w : World) : (get_static_pad e w).1 = e := rfl

@[simp]
theorem object_ref_fst (o : Option Obj) (w : World) : (object_ref o w).1 = o := rfl

@[simp]
theorem g_new0_fst (w : World) : (g_new0 w).1 = w.heap.length := rfl

theorem deref_store (w : World) (p : Nat) (s : Sink) (q : Nat) :
    (w.store p s).deref q = if p = q ∧ p < w.heap.length then s else w.deref q := by
  simp only [World.deref, World.store, List.getElem?_set]
  by_cases h : p = q
  · subst h
    by_cases h2 : p < w.heap.length
    · simp [h2]
    · simp [h2, List.getElem?_eq_none (not_lt.mp h2)]
  · simp [h]

@[simp]
theorem deref_store_teepad (w : World) (p : Nat) (b : Bool) :
    ((w.store p { w.deref p with removing := b }).deref p).teepad = (w.deref p).teepad := by
  rw [deref_store]; split <;> rfl

@[simp]
theorem deref_store_queue (w : World) (p : Nat) (b : Bool) :
    ((w.store p { w.deref p with removing := b }).deref p).queue = (w.deref p).queue := by
  rw [deref_store]; split <;> rfl

@[simp]
theorem deref_store_conv (w : World) (p : Nat) (b : Bool) :
    ((w.store p { w.deref p with removing := b }).deref p).conv = (w.deref p).conv := by
  rw [deref_store]; split <;> rfl

@[simp]
theorem deref_store_sink (w : World) (p : Nat) (b : Bool) :
    ((w.store p { w.deref p with removing := b }).deref p).sink = (w.deref p).sink := by
  rw [deref_store]; split <;> rfl

theorem cas_won (p : Nat) (a b : Bool) (w : World) (h : (w.deref p).removing = a) :
    compare_and_exchange_removing p a b w = (true, w.store p { w.deref p with removing := b }) := by
  simp [compare_and_exchange_removing, h]

theorem cas_lost (p : Nat) (a b : Bool) (w : World) (h : (w.deref p).removing ≠ a) :
    compare_and_exchange_removing p a b w = (false, w) := by
  simp [compare_and_exchange_removing, h]

/-! ## `unlink_cb`, characterised -/

theorem unlink_cb_lost (p : Nat) (w : World) (h : (w.deref p).removing = true) :
    unlink_cb p w = (GstPadProbeReturn.OK, w) := by
  simp [unlink_cb, cas_lost, h]

theorem unlink_cb_won_fst (p : Nat) (w : World) (h : (w.deref p).removing = false) :
    (unlink_cb p w).1 = GstPadProbeReturn.REMOVE := by
  simp [unlink_cb, cas_won, h]

theorem unlink_cb_won_trace (p : Nat) (w : World) (h : (w.deref p).removing = false) :
    (unlink_cb p w).2.trace = w.trace ++ teardown_calls w.vsbin w.tee (w.deref p) := by
  simp [unlink_cb, cas_won, h, teardown_calls]

theorem unlink_cb_won_heap (p : Nat) (w : World) (h : (w.deref p).removing = false) :
    (unlink_cb p w).2.heap = w.heap.set p { w.deref p with removing := true } := by
  simp [unlink_cb, cas_won, h, World.store]

/-! ## `tick_cb`, characterised -/

@[simp]
theorem request_pad_fst (w : World) : (request_pad w).1 = w.tee.map (fun _ => w.next) := by
  simp only [request_pad]; split <;> simp [*]

@[simp]
theorem request_pad_next (w : World) :
    (request_pad w).2.next = if w.tee.isSome then w.next + 1 else w.next := by
  simp only [request_pad]; split <;> simp [*]

@[simp]
theorem request_pad_teePads (w : World) :
    (request_pad w).2.teePads = if w.tee.isSome then w.teePads ++ [w.next] else w.teePads := by
  simp only [request_pad]; split <;> simp [*]

@[simp]
theorem factory_make_fst (ok : Bool) (f : String) (n : Option String) (w : World) :
    (factory_make ok f n w).1 = if ok then some w.next else none := by
  simp only [factory_make]; split <;> rfl

@[simp]
theorem factory_make_next (ok : Bool) (f : String) (n : Option String) (w : World) :
    (factory_make ok f n w).2.next = if ok then w.next + 1 else w.next := by
  simp only [factory_make]; split <;> rfl

@[simp]
theorem g_new0_heap (w : World) : (g_new0 w).2.heap = w.heap ++ [Sink.zero] := rfl

@[simp]
theorem store_heap (w : World) (p : Nat) (s : Sink) :
    (w.store p s).heap = w.heap.set p s := rfl

theorem tick_cb_fst (env : Env) (w : World) : (tick_cb env w).1 = true := by
  unfold tick_cb
  simp only []
  split <;> rfl

theorem tick_cb_add_sinks (env : Env) (w : World) (h : w.sinks = []) :
    (tick_cb env w).2.sinks = [w.heap.length] := by
  simp [tick_cb, h]

theorem tick_cb_add_heap (env : Env) (w : World) (h : w.sinks = []) :
    (tick_cb env w).2.heap = w.heap ++ [tick_cb_sink env w] := by
  simp [tick_cb, h, tick_cb_sink, deref_store, Sink.zero, World.deref]

theorem bin_add_many_trace_filter (P : Call → Bool) (hP : ∀ b e, P (Call.bin_add b e) = false)
    (bin : Option Obj) (l : List (Bool × Option Obj)) (w : World) :
    (bin_add_many bin l w).trace.filter P = w.trace.filter P := by
  induction l generalizing w with
  | nil => rfl
  | cons a l ih => obtain ⟨ok, _ | e⟩ := a <;> simp [bin_add_many, ih, hP]

theorem link_many_loop_trace_filter (P : Call → Bool)
    (hP : ∀ a b, P (Call.element_link a b) = false)
    (e1 : Obj) (l : List (Bool × Option Obj)) (w : World) :
    (link_many_loop e1 l w).2.trace.filter P = w.trace.filter P := by
  induction l generalizing w e1 with
  | nil => rfl
  | cons a l ih =>
    obtain ⟨ok, _ | e⟩ := a
    · rfl
    · cases ok <;> simp [link_many_loop, element_link, World.call, ih, hP]

theorem element_link_many_trace_filter (P : Call → Bool)
    (hP : ∀ a b, P (Call.element_link a b) = false)
    (e1 : Option Obj) (l : List (Bool × Option Obj)) (w : World) :
    (element_link_many e1 l w).2.trace.filter P = w.trace.filter P := by
  unfold element_link_many
  split
  · exact link_many_loop_trace_filter P hP _ _ _
  · rfl

theorem tick_cb_add_events (env : Env) (w : World) (h : w.sinks = []) :
    addRemoveEvents (tick_cb env w).2.trace = addRemoveEvents w.trace ++ [Call.g_print "add\n"] := by
  have h1 := bin_add_many_trace_filter Call.isAddRemove (by intros; rfl)
  have h2 := element_link_many_trace_filter Call.isAddRemove (by intros; rfl)
  simp [tick_cb, h, addRemoveEvents, h1, h2, List.filter_append, List.filter_cons,
    Call.isAddRemove]

@[simp]
theorem g_new0_deref (w : World) (q : Nat) : (g_new0 w).2.deref q = w.deref q := by
  simp only [World.deref, g_new0]
  rcases Nat.lt_trichotomy q w.heap.length with h | h | h
  · simp [List.getElem?_append_left h]
  · subst h; simp
  · rw [List.getElem?_eq_none (by simp; omega), List.getElem?_eq_none (by omega)]

theorem tick_cb_remove_eq (env : Env) (w : World) (d : Nat) (rest : List Nat)
    (h : w.sinks = d :: rest) :
    (tick_cb env w).2 =
      pad_add_probe (w.deref d).teepad d
        { g_print "remove\n" (g_new0 w).2 with sinks := rest } := by
  have hd : World.deref { g_print "remove\n" (g_new0 w).2 with sinks := rest } d = w.deref d := by
    rw [← g_new0_deref w d]; rfl
  rw [← hd]
  simp only [tick_cb, g_new0_sinks, h]

theorem tick_cb_remove_events (env : Env) (w : World) (d : Nat) (rest : List Nat)
    (h : w.sinks = d :: rest) :
    addRemoveEvents (tick_cb env w).2.trace =
      addRemoveEvents w.trace ++ [Call.g_print "remove\n"] := by
  rw [tick_cb_remove_eq env w d rest h]
  simp [addRemoveEvents, List.filter_append, List.filter_cons, Call.isAddRemove]

theorem tick_cb_remove_sinks (env : Env) (w : World) (d : Nat) (rest : List Nat)
    (h : w.sinks = d :: rest) : (tick_cb env w).2.sinks = rest := by
  rw [tick_cb_remove_eq env w d rest h]
  simp

theorem unlink_cb_sinks (p : Nat) (w : World) : (unlink_cb p w).2.sinks = w.sinks := by
  cases h : (w.deref p).removing
  · simp [unlink_cb, cas_won, h]
  · rw [unlink_cb_lost p w h]

theorem unlink_cb_events (p : Nat) (w : World) :
    addRemoveEvents (unlink_cb p w).2.trace = addRemoveEvents w.trace := by
  cases h : (w.deref p).removing
  · rw [unlink_cb_won_trace p w h]
    simp [addRemoveEvents, List.filter_append, List.filter_cons, Call.isAddRemove, teardown_calls]
  · rw [unlink_cb_lost p w h]

theorem message_cb_sinks (m : GstMessage) (w : World) : (message_cb m w).2.sinks = w.sinks := by
  unfold message_cb
  split <;> simp

theorem print_report_trace_filter (P : Call → Bool) (hP : ∀ s, P (Call.g_printerr s) = false)
    (m : GstMessage) (w : World) : (print_report m w).trace.filter P = w.trace.filter P := by
  unfold print_report
  split <;> simp [List.filter_append, List.filter_cons, hP]

theorem message_cb_events (m : GstMessage) (w : World) :
    addRemoveEvents (message_cb m w).2.trace = addRemoveEvents w.trace := by
  have h1 := print_report_trace_filter Call.isAddRemove (by intros; rfl) m
  unfold message_cb
  split <;>
    simp [addRemoveEvents, List.filter_append, List.filter_cons, Call.isAddRemove, h1]

theorem step_probe_sinks (p : Nat) (w : World) : (step (Event.probe p) w).sinks = w.sinks := by
  have h := unlink_cb_sinks p w
  simp only [step]
  split <;> simp_all

theorem step_probe_events (p : Nat) (w : World) :
    addRemoveEvents (step (Event.probe p) w).trace = addRemoveEvents w.trace := by
  have h := unlink_cb_events p w
  simp only [step]
  split <;> simp_all

theorem alternatingFrom_count (b : Bool) (n : Nat) :
    (alternatingFrom b n).count (Call.g_print "add\n") = (if b then n / 2 else (n + 1) / 2) ∧
    (alternatingFrom b n).count (Call.g_print "remove\n") = (if b then (n + 1) / 2 else n / 2) := by
  induction n generalizing b with
  | zero => cases b <;> simp [alternatingFrom]
  | succ n ih =>
    have := ih (!b)
    cases b <;> simp_all [alternatingFrom, List.count_cons] <;> omega

theorem run_events (es : List Event) (w : World) (h : w.sinks.length ≤ 1) :
    addRemoveEvents (run es w).trace =
      addRemoveEvents w.trace ++ alternatingFrom (w.sinks.length == 1) (ticks es) := by
  induction es generalizing w with
  | nil => simp [run, ticks, alternatingFrom]
  | cons e es ih =>
    cases e with
    | tick env =>
      match hs : w.sinks with
      | [] =>
        have h1 := tick_cb_add_sinks env w hs
        have h2 := tick_cb_add_events env w hs
        have := ih (step (Event.tick env) w) (by simp [step, h1])
        simp_all [run, step, ticks, alternatingFrom]
      | [d] =>
        have h1 := tick_cb_remove_sinks env w d [] hs
        have h2 := tick_cb_remove_events env w d [] hs
        have := ih (step (Event.tick env) w) (by simp [step, h1])
        simp_all [run, step, ticks, alternatingFrom]
      | _ :: _ :: _ => simp [hs] at h
    | probe p =>
      have h1 := step_probe_sinks p w
      have h2 := step_probe_events p w
      have := ih (step (Event.probe p) w) (by rw [h1]; exact h)
      simp_all [run, ticks]
    | message m =>
      have h1 := message_cb_sinks m w
      have h2 := message_cb_events m w
      have := ih (step (Event.message m) w) (by simp only [step]; rw [h1]; exact h)
      simp_all [run, ticks, step]

/-- C2: starting from any state whose Branch list is empty, a schedule with
`N` timer ticks, interleaved in any way with idle-probe callbacks (and bus
messages), emits exactly the events add, remove, add, ... of length `N`:
`ceil(N/2)` times `add` and `floor(N/2)` times `remove`; and every
invocation of `tick_cb` returns `TRUE`. -/
theorem tick_cb_alternates (es : List Event) (w : World) (h : w.sinks = []) :
    addRemoveEvents (run es w).trace = addRemoveEvents w.trace ++ alternating (ticks es) ∧
    (alternating (ticks es)).count (Call.g_print "add\n") = (ticks es + 1) / 2 ∧
    (alternating (ticks es)).count (Call.g_print "remove\n") = ticks es / 2 ∧
    (∀ (env : Env) (v : World), (tick_cb env v).1 = true) := by
  refine ⟨?_, ?_, ?_, tick_cb_fst⟩
  · have := run_events es w (by simp [h])
    simpa [alternating, h] using this
  · simpa [alternating] using (alternatingFrom_count false (ticks es)).1
  · simpa [alternating] using (alternatingFrom_count false (ticks es)).2

/-! ## The latch `removing` -/

theorem deref_removing_lt (w : World) (q : Nat) (h : (w.deref q).removing = true) :
    q < w.heap.length := by
  by_contra hq
  simp [World.deref, List.getElem?_eq_none (not_lt.mp hq), Sink.zero] at h

theorem tick_cb_deref_old (env : Env) (w : World) (q : Nat) (hq : q < w.heap.length) :
    (tick_cb env w).2.deref q = w.deref q := by
  match hs : w.sinks with
  | [] =>
    simp [World.deref, tick_cb_add_heap env w hs, List.getElem?_append_left hq]
  | d :: rest =>
    rw [tick_cb_remove_eq env w d rest hs]
    simp only [pad_add_probe_deref]
    rw [← g_new0_deref w q]; rfl

theorem unlink_cb_removing_mono (p : Nat) (w : World) (q : Nat)
    (h : (w.deref q).removing = true) : ((unlink_cb p w).2.deref q).removing = true := by
  cases hp : (w.deref p).removing
  · have hh := unlink_cb_won_heap p w hp
    have e : (unlink_cb p w).2.deref q = (w.store p { w.deref p with removing := true }).deref q := by
      simp [World.deref, hh]
    rw [e, deref_store]
    split <;> simp [h]
  · rw [unlink_cb_lost p w hp]; exact h

theorem message_cb_heap (m : GstMessage) (w : World) : (message_cb m w).2.heap = w.heap := by
  unfold message_cb
  split <;> simp

theorem step_removing_mono (e : Event) (w : World) (q : Nat)
    (h : (w.deref q).removing = true) : ((step e w).deref q).removing = true := by
  cases e with
  | tick env =>
    simp only [step]
    rw [tick_cb_deref_old env w q (deref_removing_lt w q h)]; exact h
  | probe p =>
    have h1 := unlink_cb_removing_mono p w q h
    simp only [step]
    split <;> rename_i r v hr <;> rw [hr] at h1 <;> exact h1
  | message m =>
    simp only [step, World.deref, message_cb_heap]
    exact h

/-- C1: invoking `unlink_cb` twice on an allocated Branch whose latch is
clear tears it down exactly once.  The first invocation returns
`GST_PAD_PROBE_REMOVE`, sets `removing` and makes exactly the teardown calls;
the second returns `GST_PAD_PROBE_OK` and leaves the whole world (children,
tee pads, links, element states, log) unchanged.  No event (timer tick, probe
callback on any Branch, bus message) clears a latch that is set. -/
theorem unlink_cb_twice (p : Nat) (w : World) (hp : p < w.heap.length)
    (h : (w.deref p).removing = false) :
    (unlink_cb p w).1 = GstPadProbeReturn.REMOVE ∧
    ((unlink_cb p w).2.deref p).removing = true ∧
    (unlink_cb p w).2.trace = w.trace ++ teardown_calls w.vsbin w.tee (w.deref p) ∧
    (unlink_cb p (unlink_cb p w).2).1 = GstPadProbeReturn.OK ∧
    (unlink_cb p (unlink_cb p w).2).2 = (unlink_cb p w).2 ∧
    (∀ (e : Event) (v : World) (q : Nat),
      (v.deref q).removing = true → ((step e v).deref q).removing = true) := by
  have hset : ((unlink_cb p w).2.deref p).removing = true := by
    simp [World.deref, unlink_cb_won_heap p w h, hp]
  refine ⟨unlink_cb_won_fst p w h, hset, unlink_cb_won_trace p w h, ?_, ?_, step_removing_mono⟩
  · rw [unlink_cb_lost _ _ hset]
  · rw [unlink_cb_lost _ _ hset]

theorem unlink_cb_twice_witness :
    0 < attached.heap.length ∧ (attached.deref 0).removing = false ∧
    ((unlink_cb 0 attached).1 = GstPadProbeReturn.REMOVE ∧
    ((unlink_cb 0 attached).2.deref 0).removing = true ∧
    (unlink_cb 0 attached).2.trace =
      attached.trace ++ teardown_calls attached.vsbin attached.tee (attached.deref 0) ∧
    (unlink_cb 0 (unlink_cb 0 attached).2).1 = GstPadProbeReturn.OK ∧
    (unlink_cb 0 (unlink_cb 0 attached).2).2 = (unlink_cb 0 attached).2 ∧
    (∀ (e : Event) (v : World) (q : Nat),
      (v.deref q).removing = true → ((step e v).deref q).removing = true)) :=
  ⟨by decide, by decide, unlink_cb_twice 0 attached (by decide) (by decide)⟩

/-- C10: on a Branch whose latch is clear, `unlink_cb` makes exactly these
framework calls, in this order: unlink the tee port from the sink pad of the
queue; remove queue, converter and consumer from the sink bin; set consumer,
converter, queue to `NULL`; unref queue, converter, consumer; release the
request pad and unref it; print `removed`; and it returns
`GST_PAD_PROBE_REMOVE`.  Every `set_state` comes after the unlink and after
all three removals. -/
theorem unlink_cb_call_order (p : Nat) (w : World) (h : (w.deref p).removing = false) :
    (unlink_cb p w).1 = GstPadProbeReturn.REMOVE ∧
    (unlink_cb p w).2.trace = w.trace ++
      [ Call.get_static_pad (w.deref p).queue "sink",
        Call.pad_unlink (w.deref p).teepad (w.deref p).queue,
        Call.pad_unref (w.deref p).queue,
        Call.bin_remove w.vsbin (w.deref p).queue,
        Call.bin_remove w.vsbin (w.deref p).conv,
        Call.bin_remove w.vsbin (w.deref p).sink,
        Call.set_state (w.deref p).sink GstState.NULL,
        Call.set_state (w.deref p).conv GstState.NULL,
        Call.set_state (w.deref p).queue GstState.NULL,
        Call.object_unref (w.deref p).queue,
        Call.object_unref (w.deref p).conv,
        Call.object_unref (w.deref p).sink,
        Call.release_request_pad w.tee (w.deref p).teepad,
        Call.object_unref (w.deref p).teepad,
        Call.g_print "removed\n" ] :=
  ⟨unlink_cb_won_fst p w h, unlink_cb_won_trace p w h⟩

theorem unlink_cb_call_order_witness :
    (attached.deref 0).removing = false ∧
    ((unlink_cb 0 attached).1 = GstPadProbeReturn.REMOVE ∧
    (unlink_cb 0 attached).2.trace = attached.trace ++
      [ Call.get_static_pad (some 8) "sink",
        Call.pad_unlink (some 7) (some 8),
        Call.pad_unref (some 8),
        Call.bin_remove (some 2) (some 8),
        Call.bin_remove (some 2) (some 9),
        Call.bin_remove (some 2) (some 10),
        Call.set_state (some 10) GstState.NULL,
        Call.set_state (some 9) GstState.NULL,
        Call.set_state (some 8) GstState.NULL,
        Call.object_unref (some 8),
        Call.object_unref (some 9),
        Call.object_unref (some 10),
        Call.release_request_pad (some 3) (some 7),
        Call.object_unref (some 7),
        Call.g_print "removed\n" ]) :=
  ⟨by decide, unlink_cb_call_order 0 attached (by decide)⟩

theorem tick_cb_alternates_witness :
    started.sinks = [] ∧
    (addRemoveEvents (run [Event.tick Env.ok, Event.tick Env.ok, Event.probe 0,
        Event.tick Env.ok] started).trace =
      addRemoveEvents started.trace ++ alternating 3 ∧
    (alternating 3).count (Call.g_print "add\n") = 2 ∧
    (alternating 3).count (Call.g_print "remove\n") = 1 ∧
    (∀ (env : Env) (v : World), (tick_cb env v).1 = true)) :=
  ⟨by decide, tick_cb_alternates
    [Event.tick Env.ok, Event.tick Env.ok, Event.probe 0, Event.tick Env.ok] started (by decide)⟩

/-! ## Structure of the host: children, tee pads, links -/

theorem some_bne_some (a b : Obj) : (some a != some b) = (a != b) := by
  by_cases h : a = b
  · subst h; simp
  · have h1 : (some a != some b) = true := bne_iff_ne.mpr (fun e => h (Option.some.inj e))
    have h2 : (a != b) = true := bne_iff_ne.mpr h
    rw [h1, h2]

theorem bin_remove_children (e : Option Obj) (w : World) :
    (bin_remove e w).children =
      if w.vsbin.isSome then w.children.filter (fun c => some c != e) else w.children := by
  unfold bin_remove
  simp only [World.call]
  cases hv : w.vsbin with
  | none => cases e <;> rfl
  | some v =>
    cases e with
    | none =>
      symm
      simp [List.filter_eq_self]
    | some x =>
      by_cases hx : x ∈ w.children
      · simp [hx, some_bne_some]
      · simp [hx]
        symm
        rw [List.filter_eq_self]
        intro a ha
        simp
        rintro rfl
        exact hx ha

theorem release_request_pad_teePads (pad : Option Obj) (w : World) :
    (release_request_pad pad w).teePads =
      if w.tee.isSome then w.teePads.filter (fun q => some q != pad) else w.teePads := by
  unfold release_request_pad
  simp only [World.call]
  cases ht : w.tee with
  | none => cases pad <;> rfl
  | some t =>
    cases pad with
    | none => symm; simp [List.filter_eq_self]
    | some x => simp [some_bne_some]

theorem mem_pad_unlink_padLinks (a b : Option Obj) (w : World) (l : Obj × Obj) :
    l ∈ (pad_unlink a b w).padLinks ↔ l ∈ w.padLinks ∧ ¬(a = some l.1 ∧ b = some l.2) := by
  unfold pad_unlink
  simp only [World.call]
  obtain ⟨l1, l2⟩ := l
  cases a <;> cases b <;> simp
  rename_i x y
  intro _
  constructor
  · intro h h1 h2; exact h h1.symm h2.symm
  · intro h h1 h2; exact h h1.symm h2.symm

theorem mem_bin_remove_padLinks (e : Option Obj) (w : World) (l : Obj × Obj) :
    l ∈ (bin_remove e w).padLinks ↔
      l ∈ w.padLinks ∧ ¬(w.vsbin.isSome ∧ e = some l.2 ∧ l.2 ∈ w.children) := by
  unfold bin_remove
  simp only [World.call]
  cases hv : w.vsbin with
  | none => cases e <;> simp
  | some v =>
    cases e with
    | none => simp
    | some x =>
      by_cases hx : x ∈ w.children
      · simp [hx]
        intro _
        constructor
        · intro h h1; exact absurd h1.symm h
        · intro h h1; exact h h1.symm (h1 ▸ hx)
      · simp [hx]
        intro _ h1
        exact fun h2 => hx (h1 ▸ h2)

theorem mem_release_request_pad_padLinks (pad : Option Obj) (w : World) (l : Obj × Obj) :
    l ∈ (release_request_pad pad w).padLinks ↔
      l ∈ w.padLinks ∧ ¬(w.tee.isSome ∧ pad = some l.1) := by
  unfold release_request_pad
  simp only [World.call]
  cases ht : w.tee with
  | none => cases pad <;> simp
  | some t =>
    cases pad with
    | none => simp
    | some x =>
      simp
      intro _
      exact ⟨fun h h1 => h h1.symm, fun h h1 => h h1.symm⟩

theorem unlink_cb_won_eq (p : Nat) (w : World) (h : (w.deref p).removing = false) :
    (unlink_cb p w).2 = teardown (w.deref p) (w.store p { w.deref p with removing := true }) := by
  simp [unlink_cb, cas_won, h, teardown]

theorem teardown_children (s : Sink) (w : World) :
    (teardown s w).children =
      if w.vsbin.isSome then
        w.children.filter (fun c => some c != s.queue && some c != s.conv && some c != s.sink)
      else w.children := by
  simp only [teardown, g_print_children, object_unref_children, release_request_pad_children,
    set_state_children]
  rw [bin_remove_children, bin_remove_children, bin_remove_children]
  simp only [bin_remove_vsbin, pad_unref_vsbin, pad_unlink_vsbin, get_static_pad_vsbin,
    pad_unref_children, pad_unlink_children, get_static_pad_children]
  split
  · simp only [List.filter_filter]
    apply List.filter_congr
    intro x _
    cases (some x != s.queue) <;> cases (some x != s.conv) <;> cases (some x != s.sink) <;> rfl
  · rfl

theorem teardown_teePads (s : Sink) (w : World) :
    (teardown s w).teePads =
      if w.tee.isSome then w.teePads.filter (fun q => some q != s.teepad) else w.teePads := by
  simp only [teardown, g_print_teePads, object_unref_teePads]
  rw [release_request_pad_teePads]
  simp

theorem teardown_padLinks_subset (s : Sink) (w : World) (l : Obj × Obj)
    (hl : l ∈ (teardown s w).padLinks) : l ∈ w.padLinks := by
  simp only [teardown, g_print_padLinks, object_unref_padLinks, set_state_padLinks,
    mem_release_request_pad_padLinks, mem_bin_remove_padLinks, mem_pad_unlink_padLinks,
    pad_unref_padLinks, get_static_pad_padLinks] at hl
  exact hl.1.1.1.1.1

theorem teardown_padLinks_keep (s : Sink) (w : World) (l : Obj × Obj) (hl : l ∈ w.padLinks)
    (h1 : s.teepad ≠ some l.1) (h2 : s.queue ≠ some l.2)
    (h3 : s.conv ≠ some l.2) (h4 : s.sink ≠ some l.2) :
    l ∈ (teardown s w).padLinks := by
  simp only [teardown, g_print_padLinks, object_unref_padLinks, set_state_padLinks,
    mem_release_request_pad_padLinks, mem_bin_remove_padLinks, mem_pad_unlink_padLinks,
    pad_unref_padLinks, get_static_pad_padLinks]
  simp [hl, h1, h2, h3, h4]

theorem bin_add_children (ok : Bool) (bin : Option Obj) (e : Obj) (w : World) :
    (bin_add ok bin e w).children = w.children ∨
      (bin.isSome = true ∧ (bin_add ok bin e w).children = e :: w.children) := by
  simp only [bin_add, World.call]
  split
  · rename_i h
    right
    simp only [Bool.and_eq_true] at h
    exact ⟨h.1.1.2, rfl⟩
  · left; rfl

theorem bin_add_many_children (bin : Option Obj) (l : List (Bool × Option Obj)) (w : World) :
    ∃ added, (bin_add_many bin l w).children = added ++ w.children ∧
      ∀ x ∈ added, bin.isSome = true ∧ ∃ ok, (ok, some x) ∈ l := by
  induction l generalizing w with
  | nil => exact ⟨[], rfl, by simp⟩
  | cons a l ih =>
    obtain ⟨ok, _ | e⟩ := a
    · exact ⟨[], rfl, by simp⟩
    · obtain ⟨added, h1, h2⟩ := ih (bin_add ok bin e w)
      simp only [bin_add_many]
      rcases bin_add_children ok bin e w with h | ⟨hb, h⟩
      · refine ⟨added, by rw [h1, h], ?_⟩
        intro x hx
        obtain ⟨hb, ok2, hm⟩ := h2 x hx
        exact ⟨hb, ok2, List.mem_cons_of_mem _ hm⟩
      · refine ⟨added ++ [e], by rw [h1, h]; simp, ?_⟩
        intro x hx
        rcases List.mem_append.mp hx with hx | hx
        · obtain ⟨hb, ok2, hm⟩ := h2 x hx
          exact ⟨hb, ok2, List.mem_cons_of_mem _ hm⟩
        · simp at hx
          subst hx
          exact ⟨hb, ok, List.mem_cons_self _ _⟩

theorem tick_cb_add_deref (env : Env) (w : World) (h : w.sinks = []) :
    (tick_cb env w).2.deref w.heap.length = tick_cb_sink env w := by
  simp [World.deref, tick_cb_add_heap env w h]

theorem bin_add_many_children_goal (bin : Option Obj) (l : List (Bool × Option Obj)) (W : World)
    (base : List Obj) (R : Obj → Prop) (hW : W.children = base)
    (hR : ∀ x ok, (ok, some x) ∈ l → bin.isSome = true → R x) :
    ∃ added, (bin_add_many bin l W).children = added ++ base ∧ ∀ x ∈ added, R x := by
  obtain ⟨added, h1, h2⟩ := bin_add_many_children bin l W
  refine ⟨added, by rw [h1, hW], ?_⟩
  intro x hx
  obtain ⟨hb, ok, hm⟩ := h2 x hx
  exact hR x ok hm hb

theorem tick_cb_add_children (env : Env) (w : World) (h : w.sinks = []) :
    ∃ added, (tick_cb env w).2.children = added ++ w.children ∧
      ∀ x ∈ added, w.vsbin.isSome = true ∧
        (some x = (tick_cb_sink env w).queue ∨ some x = (tick_cb_sink env w).conv ∨
          some x = (tick_cb_sink env w).sink) := by
  simp only [tick_cb, g_new0_sinks, h, debug_bin_to_dot_file_children, g_print_children,
    pad_unref_children, pad_link_children, get_static_pad_children,
    sync_state_with_parent_children, element_link_many_children]
  apply bin_add_many_children_goal
  · simp
  · intro x ok hm hb
    simp [deref_store, Sink.zero, World.deref] at hm hb
    simp [tick_cb_sink, hb]
    tauto

theorem tick_cb_add_teePads (env : Env) (w : World) (h : w.sinks = []) :
    (tick_cb env w).2.teePads = if w.tee.isSome then w.teePads ++ [w.next] else w.teePads := by
  simp [tick_cb, h]

theorem pad_link_padLinks (ok : Bool) (a b : Option Obj) (w : World) :
    (pad_link ok a b w).padLinks =
      match a, b with
      | some p, some e => if ok then (p, e) :: w.padLinks else w.padLinks
      | _, _ => w.padLinks := by
  cases a <;> cases b <;> cases ok <;> rfl

theorem tick_cb_add_padLinks (env : Env) (w : World) (h : w.sinks = []) :
    (tick_cb env w).2.padLinks =
      match (tick_cb_sink env w).teepad, (tick_cb_sink env w).queue with
      | some p, some e => if env.link_teepad then (p, e) :: w.padLinks else w.padLinks
      | _, _ => w.padLinks := by
  simp [tick_cb, h, tick_cb_sink, deref_store, Sink.zero, World.deref, pad_link_padLinks]

theorem tick_cb_vsbin (env : Env) (w : World) : (tick_cb env w).2.vsbin = w.vsbin := by
  match h : w.sinks with
  | [] => simp [tick_cb, h]
  | d :: rest => rw [tick_cb_remove_eq env w d rest h]; simp

theorem tick_cb_tee (env : Env) (w : World) : (tick_cb env w).2.tee = w.tee := by
  match h : w.sinks with
  | [] => simp [tick_cb, h]
  | d :: rest => rw [tick_cb_remove_eq env w d rest h]; simp

theorem tick_cb_sink_teepad (env : Env) (w : World) :
    (tick_cb_sink env w).teepad = w.tee.map (fun _ => w.next) := by
  simp [tick_cb_sink]

theorem tick_cb_sink_queue_ge (env : Env) (w : World) (x : Obj)
    (h : (tick_cb_sink env w).queue = some x) : w.next ≤ x := by
  simp [tick_cb_sink] at h
  obtain ⟨_, rfl⟩ := h
  split <;> omega

theorem tick_cb_sink_conv_ge (env : Env) (w : World) (x : Obj)
    (h : (tick_cb_sink env w).conv = some x) : w.next ≤ x := by
  simp [tick_cb_sink] at h
  obtain ⟨_, rfl⟩ := h
  split <;> split <;> omega

theorem tick_cb_sink_sink_ge (env : Env) (w : World) (x : Obj)
    (h : (tick_cb_sink env w).sink = some x) : w.next ≤ x := by
  simp [tick_cb_sink] at h
  obtain ⟨_, rfl⟩ := h
  split <;> split <;> split <;> omega

theorem tick_cb_remove_frame (env : Env) (w : World) (d : Nat) (rest : List Nat)
    (h : w.sinks = d :: rest) :
    (tick_cb env w).2.children = w.children ∧ (tick_cb env w).2.teePads = w.teePads ∧
    (tick_cb env w).2.padLinks = w.padLinks ∧ (tick_cb env w).2.next = w.next := by
  rw [tick_cb_remove_eq env w d rest h]
  simp

theorem wellFormed_iff (w : World) :
    w.wellFormed = true ↔
      w.vsbin.isSome = true ∧ w.tee.isSome = true ∧
      (∀ x : Nat, x ∈ w.children → x < w.next) ∧
      (∀ x : Nat, x ∈ w.teePads → x < w.next) ∧
      (∀ l : Nat × Nat, l ∈ w.padLinks → l.1 < w.next ∧ l.2 < w.next) := by
  simp [World.wellFormed, and_assoc]

theorem linkedPorts_congr (w v : World) (ht : v.teePads = w.teePads)
    (hl : ∀ p ∈ w.teePads, ((∃ l ∈ v.padLinks, l.1 = p) ↔ (∃ l ∈ w.padLinks, l.1 = p))) :
    linkedPorts v = linkedPorts w := by
  unfold linkedPorts
  rw [ht]
  congr 1
  apply List.filter_congr
  intro p hp
  have := hl p hp
  rw [Bool.eq_iff_iff]
  simpa using this

theorem mem_tick_cb_add_padLinks (env : Env) (w : World) (h : w.sinks = []) (l : Nat × Nat) :
    l ∈ (tick_cb env w).2.padLinks ↔
      l ∈ w.padLinks ∨ (env.link_teepad = true ∧ (tick_cb_sink env w).teepad = some l.1 ∧
        (tick_cb_sink env w).queue = some l.2) := by
  rw [tick_cb_add_padLinks env w h]
  obtain ⟨l1, l2⟩ := l
  cases (tick_cb_sink env w).teepad <;> cases (tick_cb_sink env w).queue <;>
    cases env.link_teepad <;> simp
  rename_i a b
  constructor
  · rintro (⟨rfl, rfl⟩ | h)
    · exact Or.inr ⟨rfl, rfl⟩
    · exact Or.inl h
  · rintro (h | ⟨rfl, rfl⟩)
    · exact Or.inr h
    · exact Or.inl ⟨rfl, rfl⟩

/-! ## The keep-alive branch is never touched -/

theorem Sink.above_zero (n : Nat) : Sink.above n Sink.zero := by
  simp [Sink.above, Sink.zero]

theorem deref_above (w : World) (n : Nat) (h : ∀ s ∈ w.heap, Sink.above n s) (p : Nat) :
    Sink.above n (w.deref p) := by
  unfold World.deref
  cases hp : w.heap[p]? with
  | none => exact Sink.above_zero n
  | some s => exact h s (List.getElem?_mem hp)

theorem tick_cb_sink_above (env : Env) (w : World) : Sink.above w.next (tick_cb_sink env w) := by
  refine ⟨?_, tick_cb_sink_queue_ge env w, tick_cb_sink_conv_ge env w, tick_cb_sink_sink_ge env w⟩
  intro x hx
  rw [tick_cb_sink_teepad] at hx
  cases ht : w.tee <;> simp [ht] at hx
  omega

theorem tick_cb_add_next (env : Env) (w : World) (h : w.sinks = []) :
    w.next ≤ (tick_cb env w).2.next := by
  simp [tick_cb, h]
  repeat (first | split | omega)

theorem tick_cb_add_hits (env : Env) (w : World) (h : w.sinks = []) :
    (tick_cb env w).2.trace.filter Call.hitsKeepalive = w.trace.filter Call.hitsKeepalive := by
  have h1 := bin_add_many_trace_filter Call.hitsKeepalive (by intros; rfl)
  have h2 := element_link_many_trace_filter Call.hitsKeepalive (by intros; rfl)
  simp [tick_cb, h, h1, h2, List.filter_append, List.filter_cons, Call.hitsKeepalive,
    Call.unlinks, Call.releases, Call.removes]

theorem tick_cb_remove_trace (env : Env) (w : World) (d : Nat) (rest : List Nat)
    (h : w.sinks = d :: rest) :
    (tick_cb env w).2.trace =
      w.trace ++ [Call.g_print "remove\n", Call.pad_add_probe (w.deref d).teepad d] := by
  rw [tick_cb_remove_eq env w d rest h]
  simp only [pad_add_probe_trace]
  show (w.trace ++ [Call.g_print "remove\n"]) ++ _ = _
  simp

theorem tick_cb_remove_heap (env : Env) (w : World) (d : Nat) (rest : List Nat)
    (h : w.sinks = d :: rest) : (tick_cb env w).2.heap = w.heap ++ [Sink.zero] := by
  rw [tick_cb_remove_eq env w d rest h]
  simp only [pad_add_probe_heap]
  rfl

theorem KeepInv.tick (env : Env) (w : World) (hw : KeepInv w) :
    KeepInv (tick_cb env w).2 := by
  match hs : w.sinks with
  | [] =>
    obtain ⟨added, c1, _⟩ := tick_cb_add_children env w hs
    refine ⟨by rw [tick_cb_vsbin]; exact hw.vsbin,
      le_trans hw.next (tick_cb_add_next env w hs), ?_, ?_, ?_, ?_, ?_, ?_⟩
    · rw [tick_cb_add_heap env w hs]
      intro s hsm
      rcases List.mem_append.mp hsm with hsm | hsm
      · exact hw.heap s hsm
      · simp at hsm
        subst hsm
        have := tick_cb_sink_above env w
        have hn := hw.next
        exact ⟨fun x hx => le_trans hn (this.1 x hx), fun x hx => le_trans hn (this.2.1 x hx),
          fun x hx => le_trans hn (this.2.2.1 x hx), fun x hx => le_trans hn (this.2.2.2 x hx)⟩
    · rw [tick_cb_add_teePads env w hs]
      split
      · exact List.mem_append_left _ hw.pad
      · exact hw.pad
    · exact (mem_tick_cb_add_padLinks env w hs _).mpr (Or.inl hw.link)
    · rw [c1]; exact List.mem_append_right _ hw.queue
    · rw [c1]; exact List.mem_append_right _ hw.sink
    · rw [tick_cb_add_hits env w hs]; exact hw.trace
  | d :: rest =>
    obtain ⟨c2, t2, l2, n2⟩ := tick_cb_remove_frame env w d rest hs
    refine ⟨by rw [tick_cb_vsbin]; exact hw.vsbin, by rw [n2]; exact hw.next, ?_,
      by rw [t2]; exact hw.pad, by rw [l2]; exact hw.link, by rw [c2]; exact hw.queue,
      by rw [c2]; exact hw.sink, ?_⟩
    · rw [tick_cb_remove_heap env w d rest hs]
      intro s hsm
      rcases List.mem_append.mp hsm with hsm | hsm
      · exact hw.heap s hsm
      · simp at hsm
        subst hsm
        exact Sink.above_zero 7
    · rw [tick_cb_remove_trace env w d rest hs, List.filter_append, hw.trace]
      rfl

theorem teardown_next (s : Sink) (w : World) : (teardown s w).next = w.next := by
  simp [teardown]

theorem teardown_vsbin (s : Sink) (w : World) : (teardown s w).vsbin = w.vsbin := by
  simp [teardown]

theorem teardown_heap (s : Sink) (w : World) : (teardown s w).heap = w.heap := by
  simp [teardown]

theorem teardown_trace (s : Sink) (w : World) :
    (teardown s w).trace = w.trace ++ teardown_calls w.vsbin w.tee s := by
  simp [teardown, teardown_calls]

theorem teardown_calls_hits (vsbin tee : Option Obj) (s : Sink) (hs : Sink.above 7 s) :
    (teardown_calls vsbin tee s).filter Call.hitsKeepalive = [] := by
  obtain ⟨tp, q, c, k, r⟩ := s
  obtain ⟨h1, h2, h3, h4⟩ := hs
  simp only at h1 h2 h3 h4
  have g1 : tp ≠ some 6 := fun e => by have := h1 _ e; omega
  have g2 : q ≠ some 4 ∧ q ≠ some 5 :=
    ⟨fun e => by have := h2 _ e; omega, fun e => by have := h2 _ e; omega⟩
  have g3 : c ≠ some 4 ∧ c ≠ some 5 :=
    ⟨fun e => by have := h3 _ e; omega, fun e => by have := h3 _ e; omega⟩
  have g4 : k ≠ some 4 ∧ k ≠ some 5 :=
    ⟨fun e => by have := h4 _ e; omega, fun e => by have := h4 _ e; omega⟩
  cases tp <;> cases q <;> cases c <;> cases k <;>
    simp_all [teardown_calls, List.filter_cons, Call.hitsKeepalive, Call.unlinks, Call.releases,
      Call.removes, keepalive_teepad, keepalive_queue, keepalive_sink]

theorem KeepInv.unlink (p : Nat) (w : World) (hw : KeepInv w) : KeepInv (unlink_cb p w).2 := by
  cases h : (w.deref p).removing
  · have ha := deref_above w 7 hw.heap p
    obtain ⟨a1, a2, a3, a4⟩ := ha
    have e := unlink_cb_won_eq p w h
    have k1 : (unlink_cb p w).2.vsbin.isSome = true := by
      rw [e, teardown_vsbin]; exact hw.vsbin
    have k2 : 7 ≤ (unlink_cb p w).2.next := by
      rw [e, teardown_next]; exact hw.next
    have k3 : ∀ s ∈ (unlink_cb p w).2.heap, Sink.above 7 s := by
      rw [e, teardown_heap, store_heap]
      intro s hsm
      rcases List.mem_or_eq_of_mem_set hsm with hsm | rfl
      · exact hw.heap s hsm
      · exact ⟨a1, a2, a3, a4⟩
    have k4 : keepalive_teepad ∈ (unlink_cb p w).2.teePads := by
      rw [e, teardown_teePads]
      split
      · rw [List.mem_filter]
        refine ⟨hw.pad, ?_⟩
        simp only [bne_iff_ne, ne_eq]
        intro e
        have := a1 _ e.symm
        simp [keepalive_teepad] at this
      · exact hw.pad
    have k5 : (keepalive_teepad, keepalive_queue) ∈ (unlink_cb p w).2.padLinks := by
      rw [e]
      refine teardown_padLinks_keep (w.deref p) (w.store p _) _
        (by rw [store_padLinks]; exact hw.link) ?_ ?_ ?_ ?_
      · intro e; have := a1 _ e; simp [keepalive_teepad] at this
      · intro e; have := a2 _ e; simp [keepalive_queue] at this
      · intro e; have := a3 _ e; simp [keepalive_queue] at this
      · intro e; have := a4 _ e; simp [keepalive_queue] at this
    have k6 : keepalive_queue ∈ (unlink_cb p w).2.children := by
      rw [e, teardown_children]
      simp only [store_vsbin, hw.vsbin, if_true, List.mem_filter, store_children]
      refine ⟨hw.queue, ?_⟩
      simp only [Bool.and_eq_true, bne_iff_ne, ne_eq]
      refine ⟨⟨?_, ?_⟩, ?_⟩ <;> intro e
      · have := a2 _ e.symm; simp [keepalive_queue] at this
      · have := a3 _ e.symm; simp [keepalive_queue] at this
      · have := a4 _ e.symm; simp [keepalive_queue] at this
    have k7 : keepalive_sink ∈ (unlink_cb p w).2.children := by
      rw [e, teardown_children]
      simp only [store_vsbin, hw.vsbin, if_true, List.mem_filter, store_children]
      refine ⟨hw.sink, ?_⟩
      simp only [Bool.and_eq_true, bne_iff_ne, ne_eq]
      refine ⟨⟨?_, ?_⟩, ?_⟩ <;> intro e
      · have := a2 _ e.symm; simp [keepalive_sink] at this
      · have := a3 _ e.symm; simp [keepalive_sink] at this
      · have := a4 _ e.symm; simp [keepalive_sink] at this
    have k8 : (unlink_cb p w).2.trace.filter Call.hitsKeepalive = [] := by
      rw [unlink_cb_won_trace p w h, List.filter_append, hw.trace, List.nil_append]
      exact teardown_calls_hits _ _ _ ⟨a1, a2, a3, a4⟩
    exact ⟨k1, k2, k3, k4, k5, k6, k7, k8⟩
  · rw [unlink_cb_lost p w h]; exact hw

theorem KeepInv.message (m : GstMessage) (w : World) (hw : KeepInv w) :
    KeepInv (message_cb m w).2 := by
  have h1 := print_report_trace_filter Call.hitsKeepalive (by intros; rfl) m
  have ht : (message_cb m w).2.trace.filter Call.hitsKeepalive = [] := by
    have := hw.trace
    unfold message_cb
    split <;> simp [List.filter_append, List.filter_cons, h1, this, Call.hitsKeepalive,
      Call.unlinks, Call.releases, Call.removes]
  have hv : (message_cb m w).2.vsbin = w.vsbin := by unfold message_cb; split <;> simp
  have hn : (message_cb m w).2.next = w.next := by unfold message_cb; split <;> simp
  have hp : (message_cb m w).2.teePads = w.teePads := by unfold message_cb; split <;> simp
  have hl : (message_cb m w).2.padLinks = w.padLinks := by unfold message_cb; split <;> simp
  have hc : (message_cb m w).2.children = w.children := by unfold message_cb; split <;> simp
  exact ⟨by rw [hv]; exact hw.vsbin, by rw [hn]; exact hw.next,
    by rw [message_cb_heap]; exact hw.heap, by rw [hp]; exact hw.pad,
    by rw [hl]; exact hw.link, by rw [hc]; exact hw.queue, by rw [hc]; exact hw.sink, ht⟩

theorem KeepInv.step (e : Event) (w : World) (hw : KeepInv w) : KeepInv (step e w) := by
  cases e with
  | tick env => exact KeepInv.tick env w hw
  | probe p =>
    have h := KeepInv.unlink p w hw
    simp only [DynTee.step]
    split
    · rename_i v hv
      rw [hv] at h
      exact ⟨h.vsbin, h.next, h.heap, h.pad, h.link, h.queue, h.sink, h.trace⟩
    · rename_i v hv
      rw [hv] at h
      exact h
  | message m => exact KeepInv.message m w hw

theorem KeepInv.run (es : List Event) (w : World) (hw : KeepInv w) : KeepInv (run es w) := by
  induction es generalizing w with
  | nil => exact hw
  | cons e es ih => exact ih _ (KeepInv.step e w hw)

theorem started_eq : started =
    { next := 7, pipeline := some 0, pbin := some 1, vsbin := some 2, tee := some 3,
      sinks := [], heap := [], children := [5, 4, 3], teePads := [6], padLinks := [(6, 4)],
      elemLinks := [(4, 5)], states := [(0, GstState.PLAYING)], probes := [], quit := false,
      trace :=
        [Call.gst_init, Call.pipeline_new (some 0), Call.factory_make "playbin" none (some 1),
          Call.bin_new "videosinkbin" 2, Call.factory_make "tee" none (some 3),
          Call.factory_make "queue" none (some 4), Call.factory_make "fakesink" none (some 5),
          Call.object_set (some 5) "sync", Call.object_set (some 1) "uri",
          Call.bin_add (some 0) 1, Call.bin_add (some 2) 3, Call.bin_add (some 2) 4,
          Call.bin_add (some 2) 5, Call.element_link 4 5,
          Call.get_pad_template (some 3) "src_%u", Call.request_pad (some 3) (some 6),
          Call.get_static_pad (some 4) "sink", Call.pad_link (some 6) (some 4),
          Call.pad_unref (some 4), Call.get_static_pad (some 3) "sink",
          Call.ghost_pad_new "sink" (some 3), Call.pad_set_active,
          Call.element_add_pad (some 2), Call.pad_unref (some 3),
          Call.object_set (some 1) "video-sink", Call.timeout_add_seconds 2,
          Call.main_loop_new, Call.pipeline_get_bus (some 0), Call.bus_add_signal_watch,
          Call.signal_connect "message", Call.bus_unref,
          Call.set_state (some 0) GstState.PLAYING, Call.main_loop_run] } := by
  rfl

theorem KeepInv.started : KeepInv started := by
  rw [started_eq]
  refine ⟨rfl, by decide, ?_, by decide, by decide, by decide, by decide, rfl⟩
  intro s hs
  simp at hs

/-- C3: in every state reachable from the state `main` constructs, by timer
ticks, idle-probe callbacks on any Branch and bus messages, the keep-alive
pad is still a request pad of the tee and still linked to the keep-alive
queue (so the tee has at least one linked pad), the keep-alive queue and
fakesink are still children of the sink bin, no call has unlinked or released
the keep-alive pad or removed the keep-alive nodes, and no Branch in the
Branch list refers to the keep-alive pad, queue or fakesink. -/
theorem keepalive_never_touched (es : List Event) :
    keepalive_teepad ∈ (run es started).teePads ∧
    (keepalive_teepad, keepalive_queue) ∈ (run es started).padLinks ∧
    1 ≤ linkedPorts (run es started) ∧
    keepalive_queue ∈ (run es started).children ∧
    keepalive_sink ∈ (run es started).children ∧
    (∀ c ∈ (run es started).trace,
      c.unlinks keepalive_teepad = false ∧ c.releases keepalive_teepad = false ∧
      c.removes keepalive_queue = false ∧ c.removes keepalive_sink = false) ∧
    (∀ p ∈ (run es started).sinks,
      ((run es started).deref p).teepad ≠ some keepalive_teepad ∧
      ((run es started).deref p).queue ≠ some keepalive_queue ∧
      ((run es started).deref p).sink ≠ some keepalive_sink) := by
  have inv := KeepInv.run es started KeepInv.started
  refine ⟨inv.pad, inv.link, ?_, inv.queue, inv.sink, ?_, ?_⟩
  · unfold linkedPorts
    apply @List.length_pos_of_mem _ keepalive_teepad
    rw [List.mem_filter]
    refine ⟨inv.pad, ?_⟩
    rw [List.any_eq_true]
    exact ⟨_, inv.link, by simp⟩
  · intro c hc
    have := (List.filter_eq_nil_iff.mp inv.trace) c hc
    simpa [Call.hitsKeepalive, not_or, and_assoc] using this
  · intro p _
    obtain ⟨a1, a2, _, a4⟩ := deref_above _ 7 inv.heap p
    refine ⟨?_, ?_, ?_⟩ <;> intro e
    · have := a1 _ e; simp [keepalive_teepad] at this
    · have := a2 _ e; simp [keepalive_queue] at this
    · have := a4 _ e; simp [keepalive_sink] at this

/-! ## Failure during attach -/

theorem tick_cb_add_rollback (env : Env) (w : World) (h : w.sinks = []) :
    (tick_cb env w).2.trace.filter Call.isRollback = w.trace.filter Call.isRollback := by
  have h1 := bin_add_many_trace_filter Call.isRollback (by intros; rfl)
  have h2 := element_link_many_trace_filter Call.isRollback (by intros; rfl)
  simp [tick_cb, h, h1, h2, List.filter_append, List.filter_cons, Call.isRollback]

/-- C5, as the code behaves: the add phase of `tick_cb` has no failure path.
Whatever the framework answers (a factory returning no node, a refused
`gst_bin_add`, a failed link), `tick_cb` returns `TRUE`, makes no
`gst_bin_remove`, `gst_pad_unlink` or `gst_element_release_request_pad` call,
keeps every child the sink bin had or got, keeps the requested pad on the
tee, and appends the Branch (holding `NULL` for a node that was not
constructed) to the Branch list. -/
theorem attach_never_rolls_back (env : Env) (w : World) (hs : w.sinks = []) :
    (tick_cb env w).1 = true ∧
    (tick_cb env w).2.sinks = [w.heap.length] ∧
    (tick_cb env w).2.deref w.heap.length = tick_cb_sink env w ∧
    (∀ x : Obj, (tick_cb_sink env w).teepad = some x → x ∈ (tick_cb env w).2.teePads) ∧
    (∃ added, (tick_cb env w).2.children = added ++ w.children) ∧
    (tick_cb env w).2.trace.filter Call.isRollback = w.trace.filter Call.isRollback := by
  refine ⟨tick_cb_fst env w, tick_cb_add_sinks env w hs, tick_cb_add_deref env w hs, ?_, ?_,
    tick_cb_add_rollback env w hs⟩
  · intro x hx
    rw [tick_cb_sink_teepad] at hx
    rw [tick_cb_add_teePads env w hs]
    cases ht : w.tee <;> simp [ht] at hx
    simp [hx]
  · obtain ⟨added, h, _⟩ := tick_cb_add_children env w hs
    exact ⟨added, h⟩

theorem attach_never_rolls_back_witness :
    started.sinks = [] ∧
    ((tick_cb Env.noConv started).1 = true ∧
    (tick_cb Env.noConv started).2.sinks = [started.heap.length] ∧
    (tick_cb Env.noConv started).2.deref started.heap.length = tick_cb_sink Env.noConv started ∧
    (∀ x : Obj, (tick_cb_sink Env.noConv started).teepad = some x →
      x ∈ (tick_cb Env.noConv started).2.teePads) ∧
    (∃ added, (tick_cb Env.noConv started).2.children = added ++ started.children) ∧
    (tick_cb Env.noConv started).2.trace.filter Call.isRollback =
      started.trace.filter Call.isRollback) :=
  ⟨by decide, attach_never_rolls_back Env.noConv started (by decide)⟩

/-- C5 fails as stated: when the converter cannot be constructed, `tick_cb`
still returns `TRUE`, the Branch is appended to the Branch list, its queue
stays a child of the sink bin, and the requested pad stays on the tee with no
release call made. -/
theorem attach_rollback_counterexample :
    (tick_cb Env.noConv started).1 = true ∧
    ((tick_cb Env.noConv started).2.deref 0).conv = none ∧
    (tick_cb Env.noConv started).2.sinks = [0] ∧
    ((tick_cb Env.noConv started).2.deref 0).queue = some 8 ∧
    8 ∈ (tick_cb Env.noConv started).2.children ∧
    ((tick_cb Env.noConv started).2.deref 0).teepad = some 7 ∧
    7 ∈ (tick_cb Env.noConv started).2.teePads ∧
    (tick_cb Env.noConv started).2.trace.filter (Call.releases 7) = [] := by
  decide

/-! ## The remove phase -/

/-- C6, as the code behaves: the remove phase of `tick_cb` pops the head of
the Branch list, prints `remove` and installs one idle probe on the tee pad
of that Branch (none when the pad is `NULL`), whatever the value of
`removing`; it neither reads nor changes any field of any Branch.  The
compare-and-set of `removing` is made by `unlink_cb` when the probe fires: on
an allocated Branch whose latch is clear it then returns
`GST_PAD_PROBE_REMOVE` with the latch set. -/
theorem remove_phase_installs_probe (env : Env) (w : World) (d : Nat) (rest : List Nat)
    (h : w.sinks = d :: rest) :
    (tick_cb env w).2.sinks = rest ∧
    (tick_cb env w).2.trace =
      w.trace ++ [Call.g_print "remove\n", Call.pad_add_probe (w.deref d).teepad d] ∧
    (tick_cb env w).2.probes =
      w.probes ++ (match (w.deref d).teepad with
        | some t => [(t, d)]
        | none => []) ∧
    (∀ q : Nat, (tick_cb env w).2.deref q = w.deref q) ∧
    ((w.deref d).removing = false → d < w.heap.length →
      (unlink_cb d (tick_cb env w).2).1 = GstPadProbeReturn.REMOVE ∧
      ((unlink_cb d (tick_cb env w).2).2.deref d).removing = true) := by
  have hd : ∀ q : Nat, (tick_cb env w).2.deref q = w.deref q := by
    intro q
    rw [tick_cb_remove_eq env w d rest h, pad_add_probe_deref, ← g_new0_deref w q]
    rfl
  refine ⟨tick_cb_remove_sinks env w d rest h, tick_cb_remove_trace env w d rest h, ?_, hd, ?_⟩
  · rw [tick_cb_remove_eq env w d rest h]
    unfold pad_add_probe
    cases (w.deref d).teepad <;> simp [g_print, g_new0, World.call]
  · intro hr hlt
    have hr2 : ((tick_cb env w).2.deref d).removing = false := by rw [hd]; exact hr
    refine ⟨unlink_cb_won_fst _ _ hr2, ?_⟩
    have hlen : d < (tick_cb env w).2.heap.length := by
      rw [tick_cb_remove_heap env w d rest h]; simp; omega
    simp [World.deref, unlink_cb_won_heap _ _ hr2, hlen]

theorem remove_phase_installs_probe_witness :
    attached.sinks = [0] ∧
    ((tick_cb Env.ok attached).2.sinks = [] ∧
    (tick_cb Env.ok attached).2.trace =
      attached.trace ++ [Call.g_print "remove\n", Call.pad_add_probe (attached.deref 0).teepad 0] ∧
    (tick_cb Env.ok attached).2.probes =
      attached.probes ++ (match (attached.deref 0).teepad with
        | some t => [(t, 0)]
        | none => []) ∧
    (∀ q : Nat, (tick_cb Env.ok attached).2.deref q = attached.deref q) ∧
    ((attached.deref 0).removing = false → 0 < attached.heap.length →
      (unlink_cb 0 (tick_cb Env.ok attached).2).1 = GstPadProbeReturn.REMOVE ∧
      ((unlink_cb 0 (tick_cb Env.ok attached).2).2.deref 0).removing = true)) :=
  ⟨by decide, remove_phase_installs_probe Env.ok attached 0 [] (by decide)⟩

/-- C6 fails as stated: the remove phase applied to a Branch whose latch is
clear leaves the latch clear (and installs the probe); applied to a Branch
whose latch is already set it still installs a probe, where none was
installed before. -/
theorem remove_phase_counterexample :
    attached.sinks = [0] ∧ (attached.deref 0).removing = false ∧
    ((tick_cb Env.ok attached).2.deref 0).removing = false ∧
    (tick_cb Env.ok attached).2.probes = [(7, 0)] ∧
    (unlink_cb 0 attached).2.sinks = [0] ∧
    ((unlink_cb 0 attached).2.deref 0).removing = true ∧
    (tick_cb Env.ok (unlink_cb 0 attached).2).2.probes = [(7, 0)] ∧
    (unlink_cb 0 attached).2.probes = [] := by
  decide

/-! ## The bus callback -/

theorem print_report_eq (m : GstMessage) (w : World) (t : List Call) :
    print_report m { w with trace := t } =
      { w with trace := t ++
          [Call.g_printerr ("ERROR: from element " ++ m.src ++ ": " ++ m.err_message ++ "\n")] ++
          (match m.debug with
            | some d => [Call.g_printerr ("Additional debug info:\n" ++ d ++ "\n")]
            | none => []) } := by
  unfold print_report
  cases m.debug <;> simp [g_printerr, World.call]

/-- C7: `message_cb` always returns `TRUE`.  It calls `g_main_loop_quit`
exactly when the message is an error or an end-of-stream.  A warning is
logged on stderr (element path and message, then the debug detail when there
is one) and changes nothing but the trace; an error is logged the same way
before the quit; end-of-stream prints `Got EOS`; every other kind leaves the
world unchanged. -/
theorem message_cb_dispatch (m : GstMessage) (w : World) :
    (message_cb m w).1 = true ∧
    ((message_cb m w).2.trace.count Call.main_loop_quit =
      w.trace.count Call.main_loop_quit +
        (if m.type = GstMessageType.ERROR ∨ m.type = GstMessageType.EOS then 1 else 0)) ∧
    ((message_cb m w).2.quit =
      (w.quit || decide (m.type = GstMessageType.ERROR ∨ m.type = GstMessageType.EOS))) ∧
    (m.type = GstMessageType.WARNING →
      (message_cb m w).2 = { w with trace := w.trace ++ report_calls m }) ∧
    (m.type = GstMessageType.ERROR →
      (message_cb m w).2 =
        { w with trace := w.trace ++ report_calls m ++ [Call.main_loop_quit], quit := true }) ∧
    (m.type = GstMessageType.EOS →
      (message_cb m w).2 =
        { w with trace := w.trace ++ [Call.g_print "Got EOS\n", Call.main_loop_quit],
                 quit := true }) ∧
    (∀ code, m.type = GstMessageType.OTHER code → (message_cb m w).2 = w) := by
  have hW : (message_cb m w).2 = match m.type with
      | GstMessageType.ERROR =>
        { w with trace := w.trace ++ report_calls m ++ [Call.main_loop_quit], quit := true }
      | GstMessageType.WARNING => { w with trace := w.trace ++ report_calls m }
      | GstMessageType.EOS =>
        { w with trace := w.trace ++ [Call.g_print "Got EOS\n", Call.main_loop_quit],
                 quit := true }
      | GstMessageType.OTHER _ => w := by
    unfold message_cb
    cases m.type <;>
      simp [World.call, print_report_eq, main_loop_quit, g_print, report_calls]
  refine ⟨?_, ?_, ?_, ?_, ?_, ?_, ?_⟩
  · unfold message_cb; split <;> rfl
  · rw [hW]
    cases hm : m.type <;> simp [report_calls, List.count_cons, List.count_append]
    all_goals cases m.debug <;> simp [List.count_cons]
  · rw [hW]
    cases hm : m.type <;> simp
  · intro hm; rw [hW, hm]
  · intro hm; rw [hW, hm]
  · intro hm; rw [hW, hm]
  · intro code hm; rw [hW, hm]

/-! ## `main`: usage error, exit status, shutdown -/

theorem startup_usage (argc : Nat) (argv : List String) (env : StartEnv) (h : argc ≠ 2) :
    startup argc argv env =
      Except.error (Outcome.aborted,
        World.init.call (Call.g_error ("Usage: " ++ argv.headD "(null)" ++ " filename"))) := by
  simp [startup, h]

theorem startup_error_aborted (argc : Nat) (argv : List String) (env : StartEnv)
    (r : Outcome × World) (h : startup argc argv env = Except.error r) :
    r.1 = Outcome.aborted := by
  unfold startup at h
  split at h
  · cases h; rfl
  · simp only [] at h
    split at h
    · cases h; rfl
    · split at h
      · cases h; rfl
      · cases h

theorem startup_ok_argc (argc : Nat) (argv : List String) (env : StartEnv) (w : World)
    (h : startup argc argv env = Except.ok w) : argc = 2 := by
  by_contra hc
  rw [startup_usage argc argv env hc] at h
  cases h

/-- C8: with an argument count other than 2, `main` emits the usage message
through `g_error`, which terminates the process abnormally: the exit status
is not 0, and nothing was created (the world is the initial one plus that
one call).  For every invocation, an exit status of 0 means that `argc` was
2, startup succeeded, `g_main_loop_run` ran and returned after a quit
request, and the shutdown statements were executed. -/
theorem main_usage_error (argc : Nat) (argv : List String) (env : StartEnv)
    (events : List Event) (h : argc ≠ 2) :
    (main argc argv env events).1 = Outcome.aborted ∧
    (main argc argv env events).1.isZero = false ∧
    (main argc argv env events).2 =
      World.init.call (Call.g_error ("Usage: " ++ argv.headD "(null)" ++ " filename")) ∧
    (main argc argv env events).2.next = 0 ∧
    (main argc argv env events).2.pipeline = none ∧
    (∀ (argc2 : Nat) (argv2 : List String) (env2 : StartEnv) (events2 : List Event),
      (main argc2 argv2 env2 events2).1.isZero = true →
        argc2 = 2 ∧ ∃ w0, startup argc2 argv2 env2 = Except.ok w0 ∧
          (g_main_loop_run events2 (w0.call Call.main_loop_run)).1 = true ∧
          main argc2 argv2 env2 events2 =
            (Outcome.returned 0,
              shutdown (g_main_loop_run events2 (w0.call Call.main_loop_run)).2)) := by
  have hm : main argc argv env events = (Outcome.aborted,
      World.init.call (Call.g_error ("Usage: " ++ argv.headD "(null)" ++ " filename"))) := by
    simp [main, startup_usage argc argv env h]
  refine ⟨by rw [hm], by rw [hm]; rfl, by rw [hm], by rw [hm]; rfl, by rw [hm]; rfl, ?_⟩
  intro argc2 argv2 env2 events2 hz
  unfold main at hz ⊢
  cases hs : startup argc2 argv2 env2 with
  | error r =>
    rw [hs] at hz
    simp only [] at hz
    rw [startup_error_aborted _ _ _ r hs] at hz
    cases hz
  | ok w0 =>
    rw [hs] at hz
    simp only [] at hz ⊢
    refine ⟨startup_ok_argc _ _ _ _ hs, w0, rfl, ?_⟩
    rcases hr : g_main_loop_run events2 (w0.call Call.main_loop_run) with ⟨b, v⟩
    rw [hr] at hz
    cases b
    · cases hz
    · exact ⟨rfl, rfl⟩

theorem main_usage_error_witness :
    (1 : Nat) ≠ 2 ∧
    ((main 1 ["dynamic-tee-vsink"] StartEnv.ok []).1 = Outcome.aborted ∧
    (main 1 ["dynamic-tee-vsink"] StartEnv.ok []).1.isZero = false ∧
    (main 1 ["dynamic-tee-vsink"] StartEnv.ok []).2 =
      World.init.call (Call.g_error ("Usage: " ++ ["dynamic-tee-vsink"].headD "(null)" ++
        " filename")) ∧
    (main 1 ["dynamic-tee-vsink"] StartEnv.ok []).2.next = 0 ∧
    (main 1 ["dynamic-tee-vsink"] StartEnv.ok []).2.pipeline = none ∧
    (∀ (argc2 : Nat) (argv2 : List String) (env2 : StartEnv) (events2 : List Event),
      (main argc2 argv2 env2 events2).1.isZero = true →
        argc2 = 2 ∧ ∃ w0, startup argc2 argv2 env2 = Except.ok w0 ∧
          (g_main_loop_run events2 (w0.call Call.main_loop_run)).1 = true ∧
          main argc2 argv2 env2 events2 =
            (Outcome.returned 0,
              shutdown (g_main_loop_run events2 (w0.call Call.main_loop_run)).2))) :=
  ⟨by decide, main_usage_error 1 ["dynamic-tee-vsink"] StartEnv.ok [] (by decide)⟩

/-- C9 at the failing input: both sessions end normally with `main`
returning 0; the keep-alive pad was requested once and released zero times,
and so was the pad of the Branch that was still attached at shutdown. -/
theorem session_leaks_request_pads :
    session_eos.1 = Outcome.returned 0 ∧
    requestCount keepalive_teepad session_eos.2.trace = 1 ∧
    releaseCount keepalive_teepad session_eos.2.trace = 0 ∧
    session_tick_eos.1 = Outcome.returned 0 ∧
    requestCount 7 session_tick_eos.2.trace = 1 ∧
    releaseCount 7 session_tick_eos.2.trace = 0 ∧
    releaseCount keepalive_teepad session_tick_eos.2.trace = 0 := by
  refine ⟨rfl, rfl, rfl, rfl, rfl, rfl, rfl⟩

/-! ## Attach followed by detach -/

theorem tick_cb_sink_lt_next (env : Env) (w : World) (h : w.sinks = []) (x : Nat)
    (hx : (tick_cb_sink env w).teepad = some x ∨ (tick_cb_sink env w).queue = some x ∨
      (tick_cb_sink env w).conv = some x ∨ (tick_cb_sink env w).sink = some x) :
    x < (tick_cb env w).2.next := by
  have hn : (tick_cb env w).2.next =
      (factory_make env.make_sink "autovideosink" (some "vsbsink")
        (factory_make env.make_conv "videoconvert" (some "vsbconv")
          (factory_make env.make_queue "queue" (some "vsbqueue") (request_pad w).2).2).2).2.next := by
    simp [tick_cb, h]
  rw [hn]
  simp only [tick_cb_sink, factory_make_fst, request_pad_fst, factory_make_next,
    request_pad_next] at hx ⊢
  cases ht : w.tee <;> cases hq : env.make_queue <;> cases hc : env.make_conv <;>
    cases hk : env.make_sink <;> simp [ht, hq, hc, hk] at hx ⊢ <;> omega

theorem wellFormed_tick (env : Env) (w : World) (hw : w.wellFormed = true) :
    (tick_cb env w).2.wellFormed = true := by
  obtain ⟨hv, ht, hc, hp, hl⟩ := (wellFormed_iff w).mp hw
  rw [wellFormed_iff]
  match hs : w.sinks with
  | [] =>
    have hn := tick_cb_add_next env w hs
    obtain ⟨added, c1, ca⟩ := tick_cb_add_children env w hs
    refine ⟨by rw [tick_cb_vsbin]; exact hv, by rw [tick_cb_tee]; exact ht, ?_, ?_, ?_⟩
    · intro x hx
      rw [c1] at hx
      rcases List.mem_append.mp hx with hx | hx
      · apply tick_cb_sink_lt_next env w hs
        rcases (ca x hx).2 with e | e | e
        · exact Or.inr (Or.inl e.symm)
        · exact Or.inr (Or.inr (Or.inl e.symm))
        · exact Or.inr (Or.inr (Or.inr e.symm))
      · have := hc x hx; omega
    · intro x hx
      rw [tick_cb_add_teePads env w hs] at hx
      simp only [ht, if_true, List.mem_append, List.mem_singleton] at hx
      rcases hx with hx | hx
      · have := hp x hx; omega
      · apply tick_cb_sink_lt_next env w hs
        left
        rw [tick_cb_sink_teepad, hx]
        obtain ⟨t, htt⟩ := Option.isSome_iff_exists.mp ht
        rw [htt]; rfl
    · intro l hl2
      rcases (mem_tick_cb_add_padLinks env w hs l).mp hl2 with h | ⟨_, h1, h2⟩
      · have := hl l h; omega
      · exact ⟨tick_cb_sink_lt_next env w hs _ (Or.inl h1),
          tick_cb_sink_lt_next env w hs _ (Or.inr (Or.inl h2))⟩
  | d :: rest =>
    obtain ⟨c2, t2, l2, n2⟩ := tick_cb_remove_frame env w d rest hs
    rw [c2, t2, l2, n2, tick_cb_vsbin, tick_cb_tee]
    exact ⟨hv, ht, hc, hp, hl⟩

theorem teardown_tee (s : Sink) (w : World) : (teardown s w).tee = w.tee := by
  simp [teardown]

theorem wellFormed_unlink (p : Nat) (w : World) (hw : w.wellFormed = true) :
    (unlink_cb p w).2.wellFormed = true := by
  cases h : (w.deref p).removing
  · obtain ⟨hv, ht, hc, hp, hl⟩ := (wellFormed_iff w).mp hw
    rw [wellFormed_iff, unlink_cb_won_eq p w h, teardown_vsbin, teardown_tee, teardown_next,
      teardown_children, teardown_teePads]
    simp only [store_vsbin, store_tee, store_next, store_children, store_teePads, hv, ht,
      if_true]
    refine ⟨trivial, trivial, ?_, ?_, ?_⟩
    · intro x hx; exact hc x (List.mem_filter.mp hx).1
    · intro x hx; exact hp x (List.mem_filter.mp hx).1
    · intro l hl2
      have := teardown_padLinks_subset _ _ l hl2
      exact hl l this
  · rw [unlink_cb_lost p w h]; exact hw

theorem wellFormed_message (m : GstMessage) (w : World) (hw : w.wellFormed = true) :
    (message_cb m w).2.wellFormed = true := by
  have hv : (message_cb m w).2.vsbin = w.vsbin := by unfold message_cb; split <;> simp
  have ht : (message_cb m w).2.tee = w.tee := by unfold message_cb; split <;> simp
  have hn : (message_cb m w).2.next = w.next := by unfold message_cb; split <;> simp
  have hp : (message_cb m w).2.teePads = w.teePads := by unfold message_cb; split <;> simp
  have hl : (message_cb m w).2.padLinks = w.padLinks := by unfold message_cb; split <;> simp
  have hc : (message_cb m w).2.children = w.children := by unfold message_cb; split <;> simp
  unfold World.wellFormed at hw ⊢
  rw [hv, ht, hn, hp, hl, hc]
  exact hw

theorem wellFormed_step (e : Event) (w : World) (hw : w.wellFormed = true) :
    (step e w).wellFormed = true := by
  cases e with
  | tick env => exact wellFormed_tick env w hw
  | probe p =>
    have h := wellFormed_unlink p w hw
    simp only [step]
    split
    · rename_i v hv
      rw [hv] at h
      exact h
    · rename_i v hv
      rw [hv] at h
      exact h
  | message m => exact wellFormed_message m w hw

theorem wellFormed_run (es : List Event) (w : World) (hw : w.wellFormed = true) :
    (run es w).wellFormed = true := by
  induction es generalizing w with
  | nil => exact hw
  | cons e es ih => exact ih _ (wellFormed_step e w hw)

/-- C4: from a well-formed host with an empty Branch list, the add phase,
the remove phase and then `unlink_cb` on the removed Branch give back the
same children of the sink bin and the same request pads on the tee, with the
same number of linked pads.  In between, when the queue is constructed and
the pad link succeeds, the tee has exactly one more pad and one more linked
pad; the remove phase alone does not change that.  Right after startup the
count of linked pads is 1, and every state reachable from there is
well-formed. -/
theorem attach_detach_roundtrip (env1 env2 : Env) (w : World)
    (hw : w.wellFormed = true) (hs : w.sinks = []) :
    ((unlink_cb w.heap.length (tick_cb env2 (tick_cb env1 w).2).2).2.children = w.children ∧
     (unlink_cb w.heap.length (tick_cb env2 (tick_cb env1 w).2).2).2.teePads = w.teePads ∧
     linkedPorts (unlink_cb w.heap.length (tick_cb env2 (tick_cb env1 w).2).2).2 =
       linkedPorts w) ∧
    (env1.make_queue = true → env1.link_teepad = true →
      (tick_cb env1 w).2.teePads.length = w.teePads.length + 1 ∧
      linkedPorts (tick_cb env1 w).2 = linkedPorts w + 1 ∧
      linkedPorts (tick_cb env2 (tick_cb env1 w).2).2 = linkedPorts w + 1) ∧
    linkedPorts started = 1 ∧
    (∀ es : List Event, (run es started).wellFormed = true) := by
  obtain ⟨hv, ht, hc, hp, hl⟩ := (wellFormed_iff w).mp hw
  have s1 := tick_cb_add_sinks env1 w hs
  have d1 := tick_cb_add_deref env1 w hs
  obtain ⟨added, c1, ca⟩ := tick_cb_add_children env1 w hs
  have t1 := tick_cb_add_teePads env1 w hs
  have l1 := tick_cb_add_padLinks env1 w hs
  have hh1 := tick_cb_add_heap env1 w hs
  obtain ⟨c2, t2, l2, _⟩ := tick_cb_remove_frame env2 (tick_cb env1 w).2 _ _ s1
  have hlen : w.heap.length < (tick_cb env1 w).2.heap.length := by rw [hh1]; simp
  have d2 : (tick_cb env2 (tick_cb env1 w).2).2.deref w.heap.length = tick_cb_sink env1 w := by
    rw [tick_cb_deref_old env2 _ _ hlen, d1]
  have hr : ((tick_cb env2 (tick_cb env1 w).2).2.deref w.heap.length).removing = false := by
    rw [d2]; rfl
  have v2 : (tick_cb env2 (tick_cb env1 w).2).2.vsbin = w.vsbin := by
    rw [tick_cb_vsbin, tick_cb_vsbin]
  have e2 : (tick_cb env2 (tick_cb env1 w).2).2.tee = w.tee := by
    rw [tick_cb_tee, tick_cb_tee]
  have stp := tick_cb_sink_teepad env1 w
  have c3 : (unlink_cb w.heap.length (tick_cb env2 (tick_cb env1 w).2).2).2.children
      = w.children := by
    rw [unlink_cb_won_eq _ _ hr, teardown_children, d2]
    simp only [store_vsbin, store_children, v2, hv, if_true, c2, c1, List.filter_append]
    have ha : added.filter (fun c => some c != (tick_cb_sink env1 w).queue &&
        some c != (tick_cb_sink env1 w).conv && some c != (tick_cb_sink env1 w).sink) = [] := by
      rw [List.filter_eq_nil_iff]
      intro x hx
      rcases (ca x hx).2 with h | h | h <;> simp [h]
    have hb : w.children.filter (fun c => some c != (tick_cb_sink env1 w).queue &&
        some c != (tick_cb_sink env1 w).conv && some c != (tick_cb_sink env1 w).sink)
        = w.children := by
      rw [List.filter_eq_self]
      intro x hx
      have := hc x hx
      have q := tick_cb_sink_queue_ge env1 w x
      have c := tick_cb_sink_conv_ge env1 w x
      have k := tick_cb_sink_sink_ge env1 w x
      simp only [Bool.and_eq_true, bne_iff_ne, ne_eq]
      refine ⟨⟨?_, ?_⟩, ?_⟩ <;> intro e
      · have := q e.symm; omega
      · have := c e.symm; omega
      · have := k e.symm; omega
    rw [ha, hb]; rfl
  have t3 : (unlink_cb w.heap.length (tick_cb env2 (tick_cb env1 w).2).2).2.teePads
      = w.teePads := by
    rw [unlink_cb_won_eq _ _ hr, teardown_teePads, d2]
    simp only [store_tee, store_teePads, e2, ht, if_true, t2, t1, stp, List.filter_append]
    obtain ⟨t, htt⟩ := Option.isSome_iff_exists.mp ht
    simp only [htt, Option.map]
    have hb : w.teePads.filter (fun q => some q != some w.next) = w.teePads := by
      rw [List.filter_eq_self]
      intro x hx
      have := hp x hx
      simp only [bne_iff_ne, ne_eq, Option.some.injEq]
      omega
    rw [hb]; simp
  have stp2 : (tick_cb_sink env1 w).teepad = some w.next := by
    obtain ⟨t, htt⟩ := Option.isSome_iff_exists.mp ht
    rw [stp, htt]; rfl
  have k3 : linkedPorts (unlink_cb w.heap.length (tick_cb env2 (tick_cb env1 w).2).2).2 =
      linkedPorts w := by
    apply linkedPorts_congr _ _ t3
    intro p hpp
    have hpn := hp p hpp
    rw [unlink_cb_won_eq _ _ hr, d2]
    constructor
    · rintro ⟨l, hl3, rfl⟩
      have h2 := teardown_padLinks_subset _ _ l hl3
      simp only [store_padLinks, l2] at h2
      rcases (mem_tick_cb_add_padLinks env1 w hs l).mp h2 with h | ⟨_, h, _⟩
      · exact ⟨l, h, rfl⟩
      · rw [stp2] at h
        have := Option.some.inj h
        omega
    · rintro ⟨l, hl0, rfl⟩
      have hb := hl l hl0
      refine ⟨l, teardown_padLinks_keep _ _ l ?_ ?_ ?_ ?_ ?_, rfl⟩
      · simp only [store_padLinks, l2]
        exact (mem_tick_cb_add_padLinks env1 w hs l).mpr (Or.inl hl0)
      · rw [stp2]; intro e; have := Option.some.inj e; omega
      · intro e; have := tick_cb_sink_queue_ge env1 w _ e; omega
      · intro e; have := tick_cb_sink_conv_ge env1 w _ e; omega
      · intro e; have := tick_cb_sink_sink_ge env1 w _ e; omega
  refine ⟨⟨c3, t3, k3⟩, ?_, by decide, fun es => wellFormed_run es started (by decide)⟩
  intro hq hk
  have t1b : (tick_cb env1 w).2.teePads = w.teePads ++ [w.next] := by rw [t1]; simp [ht]
  have k1 : linkedPorts (tick_cb env1 w).2 = linkedPorts w + 1 := by
    unfold linkedPorts
    rw [t1b, List.filter_append, List.length_append]
    congr 1
    · congr 1
      apply List.filter_congr
      intro p hpp
      have hpn := hp p hpp
      rw [Bool.eq_iff_iff]
      simp only [List.any_eq_true, beq_iff_eq]
      constructor
      · rintro ⟨l, h2, rfl⟩
        rcases (mem_tick_cb_add_padLinks env1 w hs l).mp h2 with h | ⟨_, h, _⟩
        · exact ⟨l, h, rfl⟩
        · rw [stp2] at h
          have := Option.some.inj h
          omega
      · rintro ⟨l, h2, rfl⟩
        exact ⟨l, (mem_tick_cb_add_padLinks env1 w hs l).mpr (Or.inl h2), rfl⟩
    · have hm : (w.next, w.next + 1) ∈ (tick_cb env1 w).2.padLinks := by
        rw [mem_tick_cb_add_padLinks env1 w hs]
        right
        refine ⟨hk, stp2, ?_⟩
        simp [tick_cb_sink, hq, ht]
      have : (tick_cb env1 w).2.padLinks.any (fun l => l.1 == w.next) = true := by
        rw [List.any_eq_true]
        exact ⟨_, hm, by simp⟩
      simp [List.filter_cons, this]
  refine ⟨by rw [t1b]; simp, k1, ?_⟩
  rw [← k1]
  unfold linkedPorts
  rw [t2, l2]

theorem attach_detach_roundtrip_witness :
    started.wellFormed = true ∧ started.sinks = [] ∧
    (((unlink_cb started.heap.length (tick_cb Env.ok (tick_cb Env.ok started).2).2).2.children
        = [5, 4, 3] ∧
     (unlink_cb started.heap.length (tick_cb Env.ok (tick_cb Env.ok started).2).2).2.teePads
        = [6] ∧
     linkedPorts (unlink_cb started.heap.length (tick_cb Env.ok (tick_cb Env.ok started).2).2).2 =
       1) ∧
    (Env.ok.make_queue = true → Env.ok.link_teepad = true →
      (tick_cb Env.ok started).2.teePads.length = 1 + 1 ∧
      linkedPorts (tick_cb Env.ok started).2 = 1 + 1 ∧
      linkedPorts (tick_cb Env.ok (tick_cb Env.ok started).2).2 = 1 + 1) ∧
    linkedPorts started = 1 ∧
    (∀ es : List Event, (run es started).wellFormed = true)) :=
  ⟨by decide, by decide, attach_detach_roundtrip Env.ok Env.ok started (by decide) (by decide)⟩

end DynTee
